import Mathlib

/-!
# SceneManager and ViewManager: registries, shader-state setters, scene and projection

A shallow embedding of `src/SceneManager.cpp` and of the keyboard and projection part of
`src/ViewManager.cpp`.

* The scalar type `float` is a type parameter `R`; values are only copied by the
  registries, and the transform composition is stated over exact arithmetic in `R`
  (any commutative ring, in particular the real numbers).
* `m_pShaderManager` is a pointer that may be `NULL`: `Option (ShaderManager R)`.
* `m_textureIDs` is a fixed-size array: a list whose length is the array capacity.
  An access outside of it is undefined behaviour in C++ and is reported as a `Fault`.
* The functions of the `glm` library are not part of the repository; they are written out
  from the definitions of the library, with the mathematical (row, column) indexing.
* The `while` loops run on an explicit budget of iterations; the theorems show that the
  budget handed over by each function is always enough.
* `RenderScene` is straight-line code: it is the fixed sequence of its calls, carried out
  in order; calls on the mesh provider and on OpenGL are recorded as sequences of calls.
-/

set_option autoImplicit false

/-! ## Faults -/

/-- Ways in which a run leaves the defined behaviour of the program. -/
inductive Fault where
  /-- An element of `m_textureIDs` outside of the array was accessed. -/
  | outOfBounds
  /-- A method was called through a `NULL` `m_pShaderManager`. -/
  | nullDeref
  /-- The iteration budget of a modelled `while` loop ran out. -/
  | outOfFuel
  deriving DecidableEq, Repr

/-! ## Vectors and matrices of `glm` -/

/-- The type `glm::vec2`. -/
structure vec2 (R : Type) where
  x : R
  y : R

/-- The type `glm::vec3`. -/
structure vec3 (R : Type) where
  x : R
  y : R
  z : R

/-- The type `glm::vec4`, with the colour names of its components. -/
structure vec4 (R : Type) where
  r : R
  g : R
  b : R
  a : R

/-- The type `glm::mat4`, indexed row first (the mathematical reading of the matrix). -/
abbrev mat4 (R : Type) := Matrix (Fin 4) (Fin 4) R

/-- The scalar functions of the C++ run time that the transform uses: they are not part of
the repository and are taken as parameters. -/
structure ScalarMath (R : Type) where
  /-- The function `cos`. -/
  cos : R → R
  /-- The function `sin`. -/
  sin : R → R
  /-- The function `glm::radians`: degrees to radians. -/
  radians : R → R
  /-- The function `glm::inversesqrt`, used by `glm::normalize`. -/
  inversesqrt : R → R

namespace glm

variable {R : Type} [CommRing R]

/-- The function `glm::dot` on `vec3`. -/
def dot (a b : vec3 R) : R := a.x * b.x + a.y * b.y + a.z * b.z

/-- The function `glm::normalize` on `vec3`: `v * inversesqrt(dot(v, v))`. -/
def normalize (fm : ScalarMath R) (v : vec3 R) : vec3 R :=
  let k := fm.inversesqrt (dot v v)
  ⟨v.x * k, v.y * k, v.z * k⟩

/-- The function `glm::scale(v)` of `glm/gtx/transform.hpp`: the identity matrix with its
first three columns scaled by the components of `v`. -/
def scale (v : vec3 R) : mat4 R :=
  Matrix.of fun i j =>
    if i = j then (if i = 0 then v.x else if i = 1 then v.y else if i = 2 then v.z else 1)
    else 0

/-- The function `glm::translate(v)` of `glm/gtx/transform.hpp`: the identity matrix whose
last column is `(v.x, v.y, v.z, 1)`. -/
def translate (v : vec3 R) : mat4 R :=
  Matrix.of fun i j =>
    if j = 3 then (if i = 0 then v.x else if i = 1 then v.y else if i = 2 then v.z else 1)
    else if i = j then 1 else 0

/-- The function `glm::rotate(angle, v)` of `glm/gtx/transform.hpp`, which is
`rotate(mat4(1), angle, v)`: with `c = cos angle`, `s = sin angle`,
`axis = normalize v` and `temp = (1 - c) * axis`, the entry `Rotate[col][row]` of the
library is the entry `(row, col)` here. -/
def rotate (fm : ScalarMath R) (angle : R) (v : vec3 R) : mat4 R :=
  let c := fm.cos angle
  let s := fm.sin angle
  let axis := normalize fm v
  let temp : vec3 R := ⟨(1 - c) * axis.x, (1 - c) * axis.y, (1 - c) * axis.z⟩
  !![c + temp.x * axis.x,          temp.y * axis.x - s * axis.z,  temp.z * axis.x + s * axis.y,  0;
     temp.x * axis.y + s * axis.z,  c + temp.y * axis.y,           temp.z * axis.y - s * axis.x,  0;
     temp.x * axis.z - s * axis.y,  temp.y * axis.z + s * axis.x,  c + temp.z * axis.z,           0;
     0,                             0,                             0,                             1]

end glm

/-! ## The shading stage -/

/-- A value uploaded to a uniform of the shader program. -/
inductive UniformValue (R : Type) where
  | mat4 (m : mat4 R)
  | vec2 (v : vec2 R)
  | vec3 (v : vec3 R)
  | vec4 (v : vec4 R)
  | float (f : R)
  | int (i : Int)
  | bool (b : Bool)
  | sampler2D (i : Int)

/-- Modelled from the spec: the class `ShaderManager` (its header and implementation are not
among the sources). The shading stage "accepts named-uniform uploads by string identifier"
and is "a key-value sink"; it is the sequence of the uploads it received, oldest first. -/
structure ShaderManager (R : Type) where
  uploads : List (String × UniformValue R)

namespace ShaderManager

variable {R : Type}

/-- Modelled from the spec: the upload of one named uniform. -/
def upload (sh : ShaderManager R) (name : String) (v : UniformValue R) : ShaderManager R :=
  ⟨sh.uploads ++ [(name, v)]⟩

/-- The method `setMat4Value`. -/
def setMat4Value (sh : ShaderManager R) (name : String) (m : mat4 R) : ShaderManager R :=
  sh.upload name (.mat4 m)

/-- The method `setVec2Value`. -/
def setVec2Value (sh : ShaderManager R) (name : String) (v : vec2 R) : ShaderManager R :=
  sh.upload name (.vec2 v)

/-- The method `setVec3Value`. -/
def setVec3Value (sh : ShaderManager R) (name : String) (v : vec3 R) : ShaderManager R :=
  sh.upload name (.vec3 v)

/-- The method `setVec4Value`. -/
def setVec4Value (sh : ShaderManager R) (name : String) (v : vec4 R) : ShaderManager R :=
  sh.upload name (.vec4 v)

/-- The method `setFloatValue`. -/
def setFloatValue (sh : ShaderManager R) (name : String) (f : R) : ShaderManager R :=
  sh.upload name (.float f)

/-- The method `setIntValue`; a C++ `bool` argument arrives as `0` or `1`. -/
def setIntValue (sh : ShaderManager R) (name : String) (i : Int) : ShaderManager R :=
  sh.upload name (.int i)

/-- The method `setSampler2DValue`. -/
def setSampler2DValue (sh : ShaderManager R) (name : String) (i : Int) : ShaderManager R :=
  sh.upload name (.sampler2D i)

end ShaderManager

/-! ## The scene manager -/

/-- Modelled from the spec: the struct `TEXTURE_INFO` of `SceneManager.h` (the header is
not among the sources), the entry "tag, handle" of the texture registry. The code hands the
address of the field `ID` to `glGenTextures`, passes `ID` to `glBindTexture` and assigns it
from a `GLuint`: it is an unsigned 32-bit handle. -/
structure TEXTURE_INFO where
  ID : Nat
  tag : String
  deriving DecidableEq, Repr

/-- Modelled from the spec: the struct `OBJECT_MATERIAL` of `SceneManager.h` (the header is
not among the sources), with the six fields that the code reads and writes. -/
structure OBJECT_MATERIAL (R : Type) where
  ambientColor : vec3 R
  ambientStrength : R
  diffuseColor : vec3 R
  specularColor : vec3 R
  shininess : R
  tag : String

/-- Modelled from the spec: the data members of the class `SceneManager`, declared in
`SceneManager.h` (the header is not among the sources), that the texture registry, the
material registry and the setters use. `m_textureIDs` is an array of fixed size (its length
here); `m_loadedTextures` counts the entries in use and is only ever incremented;
`m_objectMaterials` is a `std::vector`. -/
structure SceneManager (R : Type) where
  m_pShaderManager : Option (ShaderManager R)
  m_textureIDs : List TEXTURE_INFO
  m_loadedTextures : Nat
  m_objectMaterials : List (OBJECT_MATERIAL R)

/-- The result of the image decoder `stbi_load` that `CreateGLTexture` looks at. -/
structure Image where
  width : Int
  height : Int
  colorChannels : Int

/-- The OpenGL calls of `BindGLTextures`. -/
inductive GLCall where
  /-- The call `glActiveTexture(GL_TEXTURE0 + unit)`. -/
  | glActiveTexture (unit : Nat)
  /-- The call `glBindTexture(GL_TEXTURE_2D, texture)`. -/
  | glBindTexture (texture : Nat)
  deriving DecidableEq, Repr

/-- The name of the model-matrix uniform. -/
def g_ModelName : String := "model"
/-- The name of the colour uniform. -/
def g_ColorValueName : String := "objectColor"
/-- The name of the sampler uniform. -/
def g_TextureValueName : String := "objectTexture"
/-- The name of the texture-sampling flag. -/
def g_UseTextureName : String := "bUseTexture"

/-- The conversion of an unsigned 32-bit value to `int` (two-complement reading). -/
def toInt32 (n : Nat) : Int :=
  if n % 2 ^ 32 < 2 ^ 31 then ((n % 2 ^ 32 : Nat) : Int) else ((n % 2 ^ 32 : Nat) : Int) - 2 ^ 32

namespace SceneManager

variable {R : Type}

/-- The method `SetTransformations`. -/
def SetTransformations [CommRing R] (fm : ScalarMath R) (self : SceneManager R)
    (scaleXYZ : vec3 R) (XrotationDegrees YrotationDegrees ZrotationDegrees : R)
    (positionXYZ : vec3 R) : SceneManager R :=
  let scale := glm.scale scaleXYZ
  let rotationX := glm.rotate fm (fm.radians XrotationDegrees) ⟨1, 0, 0⟩
  let rotationY := glm.rotate fm (fm.radians YrotationDegrees) ⟨0, 1, 0⟩
  let rotationZ := glm.rotate fm (fm.radians ZrotationDegrees) ⟨0, 0, 1⟩
  let translation := glm.translate positionXYZ
  let modelView := translation * rotationX * rotationY * rotationZ * scale
  match self.m_pShaderManager with
  | some sh => { self with m_pShaderManager := some (sh.setMat4Value g_ModelName modelView) }
  | none => self

/-- The method `SetShaderColor`. -/
def SetShaderColor (self : SceneManager R) (redColorValue greenColorValue blueColorValue
    alphaValue : R) : SceneManager R :=
  let currentColor : vec4 R := ⟨redColorValue, greenColorValue, blueColorValue, alphaValue⟩
  match self.m_pShaderManager with
  | some sh =>
    let sh := sh.setIntValue g_UseTextureName 0
    let sh := sh.setVec4Value g_ColorValueName currentColor
    { self with m_pShaderManager := some sh }
  | none => self

/-- The loop of `FindTextureID`: `fuel` bounds the number of evaluations of the loop
condition, the other arguments are the locals `textureID`, `index` and `bFound`. -/
def FindTextureID.loop (self : SceneManager R) (tag : String) :
    Nat → Int → Nat → Bool → Except Fault Int
  | 0, _, _, _ => .error .outOfFuel
  | fuel + 1, textureID, index, bFound =>
    if index < self.m_loadedTextures ∧ bFound = false then
      match self.m_textureIDs[index]? with
      | none => .error .outOfBounds
      | some e =>
        if e.tag = tag then FindTextureID.loop self tag fuel (toInt32 e.ID) index true
        else FindTextureID.loop self tag fuel textureID (index + 1) bFound
    else .ok textureID

/-- The method `FindTextureID`. -/
def FindTextureID (self : SceneManager R) (tag : String) : Except Fault Int :=
  FindTextureID.loop self tag (self.m_loadedTextures + 1) (-1) 0 false

/-- The loop of `FindTextureSlot`: `fuel` bounds the number of evaluations of the loop
condition, the other arguments are the locals `textureSlot`, `index` and `bFound`. -/
def FindTextureSlot.loop (self : SceneManager R) (tag : String) :
    Nat → Int → Nat → Bool → Except Fault Int
  | 0, _, _, _ => .error .outOfFuel
  | fuel + 1, textureSlot, index, bFound =>
    if index < self.m_loadedTextures ∧ bFound = false then
      match self.m_textureIDs[index]? with
      | none => .error .outOfBounds
      | some e =>
        if e.tag = tag then FindTextureSlot.loop self tag fuel (index : Int) index true
        else FindTextureSlot.loop self tag fuel textureSlot (index + 1) bFound
    else .ok textureSlot

/-- The method `FindTextureSlot`. -/
def FindTextureSlot (self : SceneManager R) (tag : String) : Except Fault Int :=
  FindTextureSlot.loop self tag (self.m_loadedTextures + 1) (-1) 0 false

/-- The loop of `FindMaterial`: `fuel` bounds the number of evaluations of the loop
condition, the other arguments are the locals `index` and `bFound` and the out-parameter
`material`. -/
def FindMaterial.loop (self : SceneManager R) (tag : String) :
    Nat → Nat → Bool → OBJECT_MATERIAL R → Except Fault (OBJECT_MATERIAL R)
  | 0, _, _, _ => .error .outOfFuel
  | fuel + 1, index, bFound, material =>
    if index < self.m_objectMaterials.length ∧ bFound = false then
      match self.m_objectMaterials[index]? with
      | none => .error .outOfBounds
      | some m =>
        if m.tag = tag then
          FindMaterial.loop self tag fuel index true
            { material with
              ambientColor := m.ambientColor
              ambientStrength := m.ambientStrength
              diffuseColor := m.diffuseColor
              specularColor := m.specularColor
              shininess := m.shininess }
        else FindMaterial.loop self tag fuel (index + 1) bFound material
    else .ok material

/-- The method `FindMaterial`: the result is the returned `bool` and the final content of
the out-parameter `material`. -/
def FindMaterial (self : SceneManager R) (tag : String) (material : OBJECT_MATERIAL R) :
    Except Fault (Bool × OBJECT_MATERIAL R) :=
  if self.m_objectMaterials.length = 0 then .ok (false, material)
  else
    match FindMaterial.loop self tag (self.m_objectMaterials.length + 1) 0 false material with
    | .error f => .error f
    | .ok material => .ok (true, material)

/-- The method `SetShaderTexture`. -/
def SetShaderTexture (self : SceneManager R) (textureTag : String) :
    Except Fault (SceneManager R) :=
  match self.m_pShaderManager with
  | some sh =>
    let sh := sh.setIntValue g_UseTextureName 1
    match self.FindTextureSlot textureTag with
    | .error f => .error f
    | .ok textureID =>
      .ok { self with m_pShaderManager := some (sh.setSampler2DValue g_TextureValueName textureID) }
  | none => .ok self

/-- The method `SetTextureUVScale`. -/
def SetTextureUVScale (self : SceneManager R) (u v : R) : SceneManager R :=
  match self.m_pShaderManager with
  | some sh => { self with m_pShaderManager := some (sh.setVec2Value "UVscale" ⟨u, v⟩) }
  | none => self

/-- The method `SetShaderMaterial`. The local `material` is declared without an initial
value; its indeterminate content is the argument `material`. -/
def SetShaderMaterial (self : SceneManager R) (materialTag : String)
    (material : OBJECT_MATERIAL R) : Except Fault (SceneManager R) :=
  if self.m_objectMaterials.length > 0 then
    match self.FindMaterial materialTag material with
    | .error f => .error f
    | .ok (bReturn, material) =>
      if bReturn = true then
        match self.m_pShaderManager with
        | none => .error .nullDeref
        | some sh =>
          let sh := sh.setVec3Value "material.ambientColor" material.ambientColor
          let sh := sh.setFloatValue "material.ambientStrength" material.ambientStrength
          let sh := sh.setVec3Value "material.diffuseColor" material.diffuseColor
          let sh := sh.setVec3Value "material.specularColor" material.specularColor
          let sh := sh.setFloatValue "material.shininess" material.shininess
          .ok { self with m_pShaderManager := some sh }
      else .ok self
  else .ok self

/-- The method `CreateGLTexture`. The decoder `stbi_load` is a parameter (`none` is its
null result) and `textureID` is the name that `glGenTextures` hands out. -/
def CreateGLTexture (stbi_load : String → Option Image) (textureID : Nat)
    (self : SceneManager R) (filename : String) (tag : String) :
    Except Fault (Bool × SceneManager R) :=
  match stbi_load filename with
  | some image =>
    if image.colorChannels = 3 ∨ image.colorChannels = 4 then
      if self.m_loadedTextures < self.m_textureIDs.length then
        .ok (true,
          { self with
            m_textureIDs := self.m_textureIDs.set self.m_loadedTextures ⟨textureID, tag⟩
            m_loadedTextures := self.m_loadedTextures + 1 })
      else .error .outOfBounds
    else .ok (false, self)
  | none => .ok (false, self)

/-- The loop of `BindGLTextures`: `fuel` bounds the number of evaluations of the loop
condition, `i` is the loop counter and `calls` the OpenGL calls issued so far. -/
def BindGLTextures.loop (self : SceneManager R) :
    Nat → Nat → List GLCall → Except Fault (List GLCall)
  | 0, _, _ => .error .outOfFuel
  | fuel + 1, i, calls =>
    if i < self.m_loadedTextures then
      match self.m_textureIDs[i]? with
      | none => .error .outOfBounds
      | some e =>
        BindGLTextures.loop self fuel (i + 1)
          (calls ++ [GLCall.glActiveTexture i, GLCall.glBindTexture e.ID])
    else .ok calls

/-- The method `BindGLTextures`: the OpenGL calls it issues, in order. -/
def BindGLTextures (self : SceneManager R) : Except Fault (List GLCall) :=
  BindGLTextures.loop self (self.m_loadedTextures + 1) 0 []

/-- The method `DefineObjectMaterials`. -/
def DefineObjectMaterials [Field R] (self : SceneManager R) : SceneManager R :=
  let woodMaterial : OBJECT_MATERIAL R :=
    { ambientColor := ⟨0.2, 0.1, 0.05⟩
      ambientStrength := 0.3
      diffuseColor := ⟨0.4, 0.2, 0.1⟩
      specularColor := ⟨0.3, 0.3, 0.3⟩
      shininess := 16.0
      tag := "wood" }
  let self := { self with m_objectMaterials := self.m_objectMaterials ++ [woodMaterial] }
  let counterMaterial : OBJECT_MATERIAL R :=
    { ambientColor := ⟨0.4, 0.4, 0.4⟩
      ambientStrength := 0.2
      diffuseColor := ⟨0.7, 0.7, 0.7⟩
      specularColor := ⟨0.9, 0.9, 0.9⟩
      shininess := 8.0
      tag := "counter" }
  { self with m_objectMaterials := self.m_objectMaterials ++ [counterMaterial] }

end SceneManager

/-! ## The texture units of OpenGL -/

/-- The texture-unit state of OpenGL that `glActiveTexture` and `glBindTexture` act on:
the active unit and the `GL_TEXTURE_2D` binding of every unit. -/
structure GLUnits where
  active : Nat
  bound : Nat → Option Nat

/-- The state before any call: unit 0 is active and nothing is bound. -/
def GLUnits.initial : GLUnits := ⟨0, fun _ => none⟩

/-- The effect of one call on the texture units. -/
def GLUnits.step (g : GLUnits) : GLCall → GLUnits
  | .glActiveTexture u => { g with active := u }
  | .glBindTexture t => { g with bound := fun u => if u = g.active then some t else g.bound u }

/-- The effect of a sequence of calls on the texture units. -/
def GLUnits.run (g : GLUnits) (calls : List GLCall) : GLUnits :=
  calls.foldl GLUnits.step g


/-! ## The transform of the specification -/

section SpecTransform

variable {R : Type} [CommRing R]

/-- The translation matrix of the specification. -/
def Translate (p : vec3 R) : mat4 R :=
  !![1, 0, 0, p.x;
     0, 1, 0, p.y;
     0, 0, 1, p.z;
     0, 0, 0, 1]

/-- The rotation about the x axis of the specification, angle in radians. -/
def RotateX (fm : ScalarMath R) (t : R) : mat4 R :=
  !![1, 0,        0,         0;
     0, fm.cos t, -fm.sin t, 0;
     0, fm.sin t, fm.cos t,  0;
     0, 0,        0,         1]

/-- The rotation about the y axis of the specification, angle in radians. -/
def RotateY (fm : ScalarMath R) (t : R) : mat4 R :=
  !![fm.cos t,  0, fm.sin t, 0;
     0,         1, 0,        0;
     -fm.sin t, 0, fm.cos t, 0;
     0,         0, 0,        1]

/-- The rotation about the z axis of the specification, angle in radians. -/
def RotateZ (fm : ScalarMath R) (t : R) : mat4 R :=
  !![fm.cos t, -fm.sin t, 0, 0;
     fm.sin t, fm.cos t,  0, 0;
     0,        0,         1, 0;
     0,        0,         0, 1]

/-- The scaling matrix of the specification. -/
def Scale (v : vec3 R) : mat4 R :=
  !![v.x, 0,   0,   0;
     0,   v.y, 0,   0;
     0,   0,   v.z, 0;
     0,   0,   0,   1]

end SpecTransform

/-! ## What a sequence of OpenGL calls binds -/

/-- The calls that bind the entries `es` to the consecutive texture units `i`, `i + 1`,
and so on: one `glActiveTexture` and one `glBindTexture` per entry. -/
def bindCalls : Nat → List TEXTURE_INFO → List GLCall
  | _, [] => []
  | i, e :: es => GLCall.glActiveTexture i :: GLCall.glBindTexture e.ID :: bindCalls (i + 1) es

/-- The bindings `(unit, texture)` that a sequence of calls performs, in order: every
`glBindTexture` with the unit that is active when it is issued. -/
def bindingsFrom : Nat → List GLCall → List (Nat × Nat)
  | _, [] => []
  | _, GLCall.glActiveTexture u :: cs => bindingsFrom u cs
  | active, GLCall.glBindTexture t :: cs => (active, t) :: bindingsFrom active cs

/-! ## Releasing the textures -/

/-- The OpenGL calls that create and release texture objects. -/
inductive GLTextureCall where
  /-- The call `glGenTextures(1, &id)`, which creates one texture object and writes its
  name `name` to `id`. -/
  | glGenTextures (name : Nat)
  /-- The call `glDeleteTextures(1, &id)`, which releases the texture object `name`. -/
  | glDeleteTextures (name : Nat)
  deriving DecidableEq, Repr

/-- The loop of `DestroyGLTextures`: `fuel` bounds the number of evaluations of the loop
condition, `i` is the loop counter and `calls` the OpenGL calls issued so far. The name
that the call of iteration `i` writes is `glGenTextures i`. -/
def SceneManager.DestroyGLTextures.loop {R : Type} (glGenTextures : Nat → Nat) :
    Nat → Nat → SceneManager R → List GLTextureCall →
      Except Fault (SceneManager R × List GLTextureCall)
  | 0, _, _, _ => .error .outOfFuel
  | fuel + 1, i, self, calls =>
    if i < self.m_loadedTextures then
      match self.m_textureIDs[i]? with
      | none => .error .outOfBounds
      | some e =>
        SceneManager.DestroyGLTextures.loop glGenTextures fuel (i + 1)
          { self with m_textureIDs := self.m_textureIDs.set i { e with ID := glGenTextures i } }
          (calls ++ [GLTextureCall.glGenTextures (glGenTextures i)])
    else .ok (self, calls)

/-- The method `DestroyGLTextures`: the scene manager afterwards and the OpenGL calls
issued, in order. -/
def SceneManager.DestroyGLTextures {R : Type} (glGenTextures : Nat → Nat)
    (self : SceneManager R) : Except Fault (SceneManager R × List GLTextureCall) :=
  SceneManager.DestroyGLTextures.loop glGenTextures (self.m_loadedTextures + 1) 0 self []

/-- The names that a sequence of calls releases. -/
def releasedNames : List GLTextureCall → List Nat
  | [] => []
  | GLTextureCall.glDeleteTextures name :: cs => name :: releasedNames cs
  | GLTextureCall.glGenTextures _ :: cs => releasedNames cs

/-- The names that a sequence of calls creates. -/
def createdNames : List GLTextureCall → List Nat
  | [] => []
  | GLTextureCall.glGenTextures name :: cs => name :: createdNames cs
  | GLTextureCall.glDeleteTextures _ :: cs => createdNames cs

/-! ## Preparing and rendering the scene -/

/-- The method `setBoolValue` of the shading stage. -/
def ShaderManager.setBoolValue {R : Type} (sh : ShaderManager R) (name : String) (b : Bool) :
    ShaderManager R :=
  sh.upload name (.bool b)

/-- Modelled from the spec: the calls on the class `ShapeMeshes` behind `m_basicMeshes`
(not among the sources), the mesh provider with "`loadXMesh()` / `drawXMesh()` per shape
kind (plane, sphere, cylinder, tapered cylinder, torus)". The provider is the sequence of
the calls it receives. -/
inductive MeshCall where
  | LoadPlaneMesh
  | LoadTaperedCylinderMesh
  | LoadSphereMesh
  | LoadCylinderMesh
  | LoadTorusMesh
  | DrawPlaneMesh
  | DrawTaperedCylinderMesh
  | DrawSphereMesh
  | DrawCylinderMesh
  | DrawTorusMesh
  deriving DecidableEq, Repr

/-- Whether a call on the mesh provider is a draw call. -/
def MeshCall.isDraw : MeshCall → Bool
  | .DrawPlaneMesh => true
  | .DrawTaperedCylinderMesh => true
  | .DrawSphereMesh => true
  | .DrawCylinderMesh => true
  | .DrawTorusMesh => true
  | _ => false

/-- The method `SetupSceneLights`: it calls through `m_pShaderManager` without a test. -/
def SceneManager.SetupSceneLights {R : Type} [Field R] (self : SceneManager R) :
    Except Fault (SceneManager R) :=
  match self.m_pShaderManager with
  | none => .error .nullDeref
  | some sh =>
    let sh := sh.setBoolValue "bUseLighting" true
    let sh := sh.setVec3Value "lightSources[0].position" ⟨-2.0, 8.0, 5.5⟩
    let sh := sh.setVec3Value "lightSources[0].ambientColor" ⟨0.12, 0.08, 0.05⟩
    let sh := sh.setVec3Value "lightSources[0].diffuseColor" ⟨0.4, 0.3, 0.15⟩
    let sh := sh.setVec3Value "lightSources[0].specularColor" ⟨0.4, 0.3, 0.2⟩
    let sh := sh.setFloatValue "lightSources[0].focalStrength" 30.0
    let sh := sh.setFloatValue "lightSources[0].specularIntensity" 0.07
    let sh := sh.setVec3Value "lightSources[1].position" ⟨4.0, 1.5, 3.5⟩
    let sh := sh.setVec3Value "lightSources[1].ambientColor" ⟨0.1, 0.07, 0.05⟩
    let sh := sh.setVec3Value "lightSources[1].diffuseColor" ⟨0.4, 0.25, 0.2⟩
    let sh := sh.setVec3Value "lightSources[1].specularColor" ⟨0.1, 0.1, 0.1⟩
    let sh := sh.setFloatValue "lightSources[1].focalStrength" 25.0
    let sh := sh.setFloatValue "lightSources[1].specularIntensity" 0.1
    let sh := sh.setVec3Value "lightSources[2].position" ⟨0.0, 9.0, 0.0⟩
    let sh := sh.setVec3Value "lightSources[2].ambientColor" ⟨0.25, 0.25, 0.25⟩
    let sh := sh.setVec3Value "lightSources[2].diffuseColor" ⟨0.3, 0.3, 0.3⟩
    let sh := sh.setVec3Value "lightSources[2].specularColor" ⟨0.1, 0.1, 0.1⟩
    let sh := sh.setFloatValue "lightSources[2].focalStrength" 80.0
    let sh := sh.setFloatValue "lightSources[2].specularIntensity" 0.02
    let sh := sh.setVec3Value "lightSources[3].position" ⟨2.0, 2.5, 3.0⟩
    let sh := sh.setVec3Value "lightSources[3].ambientColor" ⟨0.15, 0.1, 0.05⟩
    let sh := sh.setVec3Value "lightSources[3].diffuseColor" ⟨0.4, 0.3, 0.15⟩
    let sh := sh.setVec3Value "lightSources[3].specularColor" ⟨0.2, 0.2, 0.2⟩
    let sh := sh.setFloatValue "lightSources[3].focalStrength" 35.0
    let sh := sh.setFloatValue "lightSources[3].specularIntensity" 0.05
    .ok { self with m_pShaderManager := some sh }

/-- The method `PrepareScene`: the scene manager afterwards and the calls on the mesh
provider. The return values of the six `CreateGLTexture` calls are dropped, as in the
source. The name that `glGenTextures` hands out in the `k`-th of them is
`glGenTextures k`. -/
def SceneManager.PrepareScene {R : Type} [Field R] (stbi_load : String → Option Image)
    (glGenTextures : Nat → Nat) (self : SceneManager R) :
    Except Fault (SceneManager R × List MeshCall) := do
  let meshCalls := [MeshCall.LoadPlaneMesh, MeshCall.LoadTaperedCylinderMesh,
    MeshCall.LoadSphereMesh, MeshCall.LoadCylinderMesh, MeshCall.LoadTorusMesh]
  let (_, self) ← CreateGLTexture stbi_load (glGenTextures 0) self "textures/wood.jpg" "wood"
  let (_, self) ← CreateGLTexture stbi_load (glGenTextures 1) self "textures/counter.jpg"
    "counter"
  let (_, self) ← CreateGLTexture stbi_load (glGenTextures 2) self "textures/apple.jpg" "apple"
  let (_, self) ← CreateGLTexture stbi_load (glGenTextures 3) self "textures/stainless.jpg"
    "stainless"
  let (_, self) ← CreateGLTexture stbi_load (glGenTextures 4) self "textures/plate.jpg" "plate"
  let (_, self) ← CreateGLTexture stbi_load (glGenTextures 5) self "textures/ceramic.jpg"
    "ceramic"
  let self := self.DefineObjectMaterials
  let self ← self.SetupSceneLights
  return (self, meshCalls)

/-- The image files that `PrepareScene` loads. -/
def sceneTextureFiles : List String :=
  ["textures/wood.jpg", "textures/counter.jpg", "textures/apple.jpg",
   "textures/stainless.jpg", "textures/plate.jpg", "textures/ceramic.jpg"]

/-- A call that `RenderScene` makes, with its arguments: one of the four setters it uses, or
a draw call on `m_basicMeshes`. The second argument of `SetShaderMaterial` is the
indeterminate content of the local variable of that call. -/
inductive SceneCall (R : Type) where
  | SetTransformations (scaleXYZ : vec3 R)
      (XrotationDegrees YrotationDegrees ZrotationDegrees : R) (positionXYZ : vec3 R)
  | SetShaderTexture (textureTag : String)
  | SetTextureUVScale (u v : R)
  | SetShaderMaterial (materialTag : String) (material : OBJECT_MATERIAL R)
  | DrawPlaneMesh
  | DrawTaperedCylinderMesh
  | DrawSphereMesh
  | DrawCylinderMesh
  | DrawTorusMesh

/-- The tag of a `SetShaderTexture` call. -/
def SceneCall.textureTag {R : Type} : SceneCall R → Option String
  | .SetShaderTexture textureTag => some textureTag
  | _ => none

/-- The tag of a `SetShaderMaterial` call. -/
def SceneCall.materialTag {R : Type} : SceneCall R → Option String
  | .SetShaderMaterial materialTag _ => some materialTag
  | _ => none

/-- The call on the mesh provider that a call of `RenderScene` amounts to, if any. -/
def SceneCall.meshCalls {R : Type} : SceneCall R → List MeshCall
  | .DrawPlaneMesh => [MeshCall.DrawPlaneMesh]
  | .DrawTaperedCylinderMesh => [MeshCall.DrawTaperedCylinderMesh]
  | .DrawSphereMesh => [MeshCall.DrawSphereMesh]
  | .DrawCylinderMesh => [MeshCall.DrawCylinderMesh]
  | .DrawTorusMesh => [MeshCall.DrawTorusMesh]
  | _ => []

/-- The body of `RenderScene` is straight-line code: this is the sequence of the calls it
makes, in the order of the source, with the values that its local variables hold at each
call. -/
def SceneManager.RenderScene.calls {R : Type} [Field R] (material1 material2 : OBJECT_MATERIAL R) :
    List (SceneCall R) :=
  -- floor plane
  let scaleXYZ : vec3 R := ⟨20.0, 1.0, 10.0⟩
  let XrotationDegrees : R := 0.0
  let YrotationDegrees : R := 0.0
  let ZrotationDegrees : R := 0.0
  let positionXYZ : vec3 R := ⟨0.0, 0.0, 0.0⟩
  let floorPlane : List (SceneCall R) :=
    [.SetTransformations scaleXYZ XrotationDegrees YrotationDegrees ZrotationDegrees positionXYZ,
     .SetShaderTexture "counter", .SetTextureUVScale 1.0 1.0,
     .SetShaderMaterial "wood" material1, .DrawPlaneMesh]
  let bowlTilt : R := 10.0
  -- bowl base
  let scaleXYZ : vec3 R := ⟨1.85, 0.15, 1.85⟩
  let XrotationDegrees : R := bowlTilt
  let positionXYZ : vec3 R := ⟨0.0, 0.25, 0.0⟩
  let bowlBase : List (SceneCall R) :=
    [.SetTransformations scaleXYZ XrotationDegrees 0.0 0.0 positionXYZ,
     .SetShaderTexture "wood", .SetShaderMaterial "wood" material2,
     .SetTextureUVScale 1.0 1.0, .DrawTaperedCylinderMesh]
  -- bowl outer shell
  let scaleXYZ : vec3 R := ⟨2.0, -1.0, 2.0⟩
  let positionXYZ : vec3 R := ⟨0.0, 0.9, 0.0⟩
  let bowlShell : List (SceneCall R) :=
    [.SetTransformations scaleXYZ bowlTilt 0.0 0.0 positionXYZ,
     .SetShaderTexture "wood", .SetTextureUVScale 1.0 1.0, .DrawSphereMesh]
  -- bowl inner scoop
  let scaleXYZ : vec3 R := ⟨1.65, -0.95, 1.65⟩
  let positionXYZ : vec3 R := ⟨0.0, 0.95, 0.0⟩
  let bowlScoop : List (SceneCall R) :=
    [.SetTransformations scaleXYZ bowlTilt 0.0 0.0 positionXYZ,
     .SetShaderTexture "wood", .SetTextureUVScale 1.0 1.0, .DrawSphereMesh]
  -- bowl rim
  let scaleXYZ : vec3 R := ⟨2.05, 0.05, 2.05⟩
  let positionXYZ : vec3 R := ⟨0.0, 1.38, 0.0⟩
  let bowlRim : List (SceneCall R) :=
    [.SetTransformations scaleXYZ bowlTilt 0.0 0.0 positionXYZ,
     .SetShaderTexture "wood", .SetTextureUVScale 1.0 1.0, .DrawCylinderMesh]
  -- spoon handle
  let scaleXYZ : vec3 R := ⟨0.12, 1.2, 0.12⟩
  let XrotationDegrees : R := 90.0
  let YrotationDegrees : R := 0.0
  let ZrotationDegrees : R := -30.0
  let positionXYZ : vec3 R := ⟨2.4, 0.1, 0.1⟩
  let spoonHandle : List (SceneCall R) :=
    [.SetTransformations scaleXYZ XrotationDegrees YrotationDegrees ZrotationDegrees positionXYZ,
     .SetShaderTexture "wood", .SetTextureUVScale 1.0 1.0, .DrawCylinderMesh]
  -- spoon scoop
  let scaleXYZ : vec3 R := ⟨0.35, 0.06, 0.25⟩
  let XrotationDegrees : R := 180.0
  let YrotationDegrees : R := 0.0
  let ZrotationDegrees : R := 0.0
  let positionXYZ : vec3 R := ⟨2.45, 0.07, 0.05⟩
  let spoonScoop : List (SceneCall R) :=
    [.SetTransformations scaleXYZ XrotationDegrees YrotationDegrees ZrotationDegrees positionXYZ,
     .SetShaderTexture "wood", .SetTextureUVScale 1.0 1.0, .DrawSphereMesh]
  -- mug body
  let scaleXYZ : vec3 R := ⟨0.5, 0.8, 0.5⟩
  let positionXYZ : vec3 R := ⟨4.0, 0.5, -2.5⟩
  let mugBody : List (SceneCall R) :=
    [.SetTransformations scaleXYZ 0.0 0.0 0.0 positionXYZ,
     .SetShaderTexture "ceramic", .SetTextureUVScale 1.0 1.0, .DrawCylinderMesh]
  -- mug handle
  let scaleXYZ : vec3 R := ⟨0.25, 0.25, 0.25⟩
  let positionXYZ : vec3 R := ⟨4.55, 0.9, -2.5⟩
  let XrotationDegrees : R := 0.0
  let YrotationDegrees : R := 0.0
  let ZrotationDegrees : R := 90.0
  let mugHandle : List (SceneCall R) :=
    [.SetTransformations scaleXYZ XrotationDegrees YrotationDegrees ZrotationDegrees positionXYZ,
     .SetShaderTexture "ceramic", .SetTextureUVScale 1.0 1.0, .DrawTorusMesh]
  -- apple body
  let scaleXYZ : vec3 R := ⟨0.6, 0.6, 0.6⟩
  let positionXYZ : vec3 R := ⟨-4.0, 0.35, -2.0⟩
  let appleBody : List (SceneCall R) :=
    [.SetTransformations scaleXYZ 0.0 0.0 0.0 positionXYZ,
     .SetShaderTexture "apple", .SetTextureUVScale 1.0 1.0, .DrawSphereMesh]
  -- apple stem
  let scaleXYZ : vec3 R := ⟨0.07, 0.2, 0.07⟩
  let positionXYZ : vec3 R := ⟨-4.0, 0.9, -2.0⟩
  let XrotationDegrees : R := 0.0
  let YrotationDegrees : R := 0.0
  let ZrotationDegrees : R := 0.0
  let appleStem : List (SceneCall R) :=
    [.SetTransformations scaleXYZ XrotationDegrees YrotationDegrees ZrotationDegrees positionXYZ,
     .SetShaderTexture "wood", .SetTextureUVScale 1.0 1.0, .DrawCylinderMesh]
  -- plate
  let scaleXYZ : vec3 R := ⟨1.2, 0.05, 1.2⟩
  let positionXYZ : vec3 R := ⟨0.0, 0.2, 4.0⟩
  let plate : List (SceneCall R) :=
    [.SetTransformations scaleXYZ 0.0 0.0 0.0 positionXYZ,
     .SetShaderTexture "plate", .SetTextureUVScale 1.0 1.0, .DrawCylinderMesh]
  floorPlane ++ bowlBase ++ bowlShell ++ bowlScoop ++ bowlRim ++ spoonHandle ++ spoonScoop
    ++ mugBody ++ mugHandle ++ appleBody ++ appleStem ++ plate

/-- One call of `RenderScene` carried out: on the scene manager for a setter, on the mesh
provider (whose calls so far are the second component) for a draw call. -/
def SceneManager.perform {R : Type} [CommRing R] (fm : ScalarMath R)
    (state : SceneManager R × List MeshCall) :
    SceneCall R → Except Fault (SceneManager R × List MeshCall)
  | .SetTransformations scaleXYZ x y z positionXYZ =>
    .ok (state.1.SetTransformations fm scaleXYZ x y z positionXYZ, state.2)
  | .SetShaderTexture textureTag =>
    match state.1.SetShaderTexture textureTag with
    | .error f => .error f
    | .ok self => .ok (self, state.2)
  | .SetTextureUVScale u v => .ok (state.1.SetTextureUVScale u v, state.2)
  | .SetShaderMaterial materialTag material =>
    match state.1.SetShaderMaterial materialTag material with
    | .error f => .error f
    | .ok self => .ok (self, state.2)
  | .DrawPlaneMesh => .ok (state.1, state.2 ++ [MeshCall.DrawPlaneMesh])
  | .DrawTaperedCylinderMesh => .ok (state.1, state.2 ++ [MeshCall.DrawTaperedCylinderMesh])
  | .DrawSphereMesh => .ok (state.1, state.2 ++ [MeshCall.DrawSphereMesh])
  | .DrawCylinderMesh => .ok (state.1, state.2 ++ [MeshCall.DrawCylinderMesh])
  | .DrawTorusMesh => .ok (state.1, state.2 ++ [MeshCall.DrawTorusMesh])

/-- A sequence of calls carried out in order, stopping at the first fault. -/
def SceneManager.performAll {R : Type} [CommRing R] (fm : ScalarMath R) :
    List (SceneCall R) → SceneManager R × List MeshCall →
      Except Fault (SceneManager R × List MeshCall)
  | [], state => .ok state
  | call :: calls, state =>
    match SceneManager.perform fm state call with
    | .error f => .error f
    | .ok state => SceneManager.performAll fm calls state

/-- The method `RenderScene`: the scene manager afterwards and the calls on the mesh
provider, in order. -/
def SceneManager.RenderScene {R : Type} [Field R] (fm : ScalarMath R) (self : SceneManager R)
    (material1 material2 : OBJECT_MATERIAL R) :
    Except Fault (SceneManager R × List MeshCall) :=
  SceneManager.performAll fm (SceneManager.RenderScene.calls material1 material2) (self, [])

/-! ## The view manager -/

/-- The keys that `ProcessKeyboardEvents` polls with `glfwGetKey`. -/
inductive Key where
  | ESCAPE | W | S | A | D | Q | E | P | O
  deriving DecidableEq, Repr

/-- The enumeration `Camera_Movement` of the camera. -/
inductive Camera_Movement where
  | FORWARD | BACKWARD | LEFT | RIGHT | UP | DOWN
  deriving DecidableEq, Repr

/-- Modelled from the spec: the class `Camera` (its header is not among the sources), the
"CameraState" that input processing mutates. A camera is a value of the type `C`; the
members that the view manager uses are taken as parameters. -/
structure CameraOps (R C : Type) where
  /-- The method `ProcessKeyboard(direction, deltaTime)`. -/
  ProcessKeyboard : C → Camera_Movement → R → C
  /-- The method `GetViewMatrix()`. -/
  GetViewMatrix : C → mat4 R
  /-- The member `Position`. -/
  Position : C → vec3 R
  /-- The member `Zoom`. -/
  Zoom : C → R

/-- The constant `WINDOW_WIDTH`. -/
def WINDOW_WIDTH : Int := 1000
/-- The constant `WINDOW_HEIGHT`. -/
def WINDOW_HEIGHT : Int := 800
/-- The name of the view-matrix uniform. -/
def g_ViewName : String := "view"
/-- The name of the projection-matrix uniform. -/
def g_ProjectionName : String := "projection"

/-- The function `glm::ortho(left, right, bottom, top, zNear, zFar)`: the identity matrix
with the entries `[0][0]`, `[1][1]`, `[2][2]`, `[3][0]`, `[3][1]` and `[3][2]` of the
library set; the entry `[col][row]` of the library is the entry `(row, col)` here. -/
def glm.ortho {R : Type} [Field R] (left right bottom top zNear zFar : R) : mat4 R :=
  !![2 / (right - left), 0, 0, -(right + left) / (right - left);
     0, 2 / (top - bottom), 0, -(top + bottom) / (top - bottom);
     0, 0, -2 / (zFar - zNear), -(zFar + zNear) / (zFar - zNear);
     0, 0, 0, 1]

/-- The function `glm::perspective(fovy, aspect, zNear, zFar)`: the zero matrix with the
entries `[0][0]`, `[1][1]`, `[2][2]`, `[2][3]` and `[3][2]` of the library set, where
`tanHalfFovy = tan(fovy / 2)`; the function `tan` is a parameter. -/
def glm.perspective {R : Type} [Field R] (tan : R → R) (fovy aspect zNear zFar : R) : mat4 R :=
  let tanHalfFovy := tan (fovy / 2)
  !![1 / (aspect * tanHalfFovy), 0, 0, 0;
     0, 1 / tanHalfFovy, 0, 0;
     0, 0, -(zFar + zNear) / (zFar - zNear), -(2 * zFar * zNear) / (zFar - zNear);
     0, 0, -1, 0]

/-- The state that the view manager works on: its member `m_pShaderManager`, the close flag
of the window behind `m_pWindow`, and the file-scope variables `g_pCamera`, `gDeltaTime`,
`gLastFrame` and `bOrthographicProjection`. -/
structure ViewManager (R C : Type) where
  m_pShaderManager : Option (ShaderManager R)
  windowShouldClose : Bool
  g_pCamera : Option C
  gDeltaTime : R
  gLastFrame : R
  bOrthographicProjection : Bool

/-- The method `ProcessKeyboardEvents`; `pressed key` tells whether
`glfwGetKey(m_pWindow, key)` returns `GLFW_PRESS`. -/
def ViewManager.ProcessKeyboardEvents {R C : Type} (camera : CameraOps R C)
    (pressed : Key → Bool) (self : ViewManager R C) : ViewManager R C :=
  let self := if pressed Key.ESCAPE then { self with windowShouldClose := true } else self
  let self :=
    match self.g_pCamera with
    | some cam =>
      let cam := if pressed Key.W then
        camera.ProcessKeyboard cam Camera_Movement.FORWARD self.gDeltaTime else cam
      let cam := if pressed Key.S then
        camera.ProcessKeyboard cam Camera_Movement.BACKWARD self.gDeltaTime else cam
      let cam := if pressed Key.A then
        camera.ProcessKeyboard cam Camera_Movement.LEFT self.gDeltaTime else cam
      let cam := if pressed Key.D then
        camera.ProcessKeyboard cam Camera_Movement.RIGHT self.gDeltaTime else cam
      let cam := if pressed Key.Q then
        camera.ProcessKeyboard cam Camera_Movement.UP self.gDeltaTime else cam
      let cam := if pressed Key.E then
        camera.ProcessKeyboard cam Camera_Movement.DOWN self.gDeltaTime else cam
      { self with g_pCamera := some cam }
    | none => self
  let self := if pressed Key.P then { self with bOrthographicProjection := false } else self
  let self := if pressed Key.O then { self with bOrthographicProjection := true } else self
  self

/-- The method `PrepareSceneView`; `glfwGetTime` is the value that the call of that name
returns. The camera is used without a test of `g_pCamera`. -/
def ViewManager.PrepareSceneView {R C : Type} [Field R] (fm : ScalarMath R) (tan : R → R)
    (camera : CameraOps R C) (glfwGetTime : R) (pressed : Key → Bool)
    (self : ViewManager R C) : Except Fault (ViewManager R C) :=
  let currentFrame := glfwGetTime
  let self := { self with gDeltaTime := currentFrame - self.gLastFrame }
  let self := { self with gLastFrame := currentFrame }
  let self := self.ProcessKeyboardEvents camera pressed
  match self.g_pCamera with
  | none => .error .nullDeref
  | some cam =>
    let view := camera.GetViewMatrix cam
    let projection : mat4 R :=
      if self.bOrthographicProjection then
        let orthoSize : R := 10.0
        let aspect : R := (WINDOW_WIDTH : R) / (WINDOW_HEIGHT : R)
        glm.ortho (-orthoSize * aspect) (orthoSize * aspect) (-orthoSize) orthoSize 0.1 100.0
      else
        glm.perspective tan (fm.radians (camera.Zoom cam))
          ((WINDOW_WIDTH : R) / (WINDOW_HEIGHT : R)) 0.1 100.0
    match self.m_pShaderManager with
    | some sh =>
      let sh := sh.setMat4Value g_ViewName view
      let sh := sh.setMat4Value g_ProjectionName projection
      let sh := sh.setVec3Value "viewPosition" (camera.Position cam)
      .ok { self with m_pShaderManager := some sh }
    | none => .ok self

/-! ## Concrete inputs -/

/-- The scalar functions used for concrete runs over the rationals: the angle is ignored
(`cos = 1`, `sin = 0`), so that every rotation is the identity. -/
def flatMath : ScalarMath ℚ := ⟨fun _ => 1, fun _ => 0, fun d => d, fun _ => 1⟩

/-- A material tagged `wood`, with distinct field values. -/
def woodSample : OBJECT_MATERIAL ℚ := ⟨⟨1, 2, 3⟩, 4, ⟨5, 6, 7⟩, ⟨8, 9, 10⟩, 16, "wood"⟩

/-- A second material tagged `wood`, with other field values. -/
def woodLater : OBJECT_MATERIAL ℚ := ⟨⟨21, 22, 23⟩, 24, ⟨25, 26, 27⟩, ⟨28, 29, 30⟩, 32, "wood"⟩

/-- Some content of a material variable before a lookup writes to it. -/
def staleMaterial : OBJECT_MATERIAL ℚ := ⟨⟨0, 0, 0⟩, 0, ⟨0, 0, 0⟩, ⟨0, 0, 0⟩, 0, ""⟩

/-- A scene manager with a shading stage that received nothing yet, no texture and the
single material `woodSample`. -/
def oneMaterialScene : SceneManager ℚ := ⟨some ⟨[]⟩, [], 0, [woodSample]⟩

/-- The same registry as `oneMaterialScene`, with a `NULL` shading-stage handle. -/
def noShaderScene : SceneManager ℚ := ⟨none, [], 0, [woodSample]⟩

/-- An image decoder that decodes every file to a 64 by 64 image with `channels` colour
channels. -/
def decodeWith (channels : Int) : String → Option Image := fun _ => some ⟨64, 64, channels⟩

/-- An image decoder that fails on every file. -/
def decodeFails : String → Option Image := fun _ => none

/-- A scene manager with an array of sixteen texture entries, none of them loaded. -/
def emptyScene : SceneManager ℚ := ⟨some ⟨[]⟩, List.replicate 16 ⟨0, ""⟩, 0, []⟩

/-- An array of sixteen texture entries whose first three are in use, the tag `wood` being
carried by the entries 0 and 2. -/
def shadowTextures : List TEXTURE_INFO :=
  [⟨7, "wood"⟩, ⟨9, "counter"⟩, ⟨11, "wood"⟩] ++ List.replicate 13 ⟨0, ""⟩

/-- A scene manager with the three loaded textures of `shadowTextures`. -/
def shadowScene : SceneManager ℚ := ⟨some ⟨[]⟩, shadowTextures, 3, []⟩

/-- A scene manager with an array of sixteen texture entries whose single loaded texture
has the handle `2 ^ 32 - 1`. -/
def maxHandleScene : SceneManager ℚ :=
  ⟨some ⟨[]⟩, ⟨4294967295, "wood"⟩ :: List.replicate 15 ⟨0, ""⟩, 1, []⟩

/-- A scene manager whose material registry holds two materials tagged `wood`. -/
def shadowMaterials : SceneManager ℚ := ⟨some ⟨[]⟩, [], 0, [woodSample, woodLater]⟩

/-- Two scene managers have the same texture registry and the same material registry, and
the shading-stage handle is `NULL` in both or in neither. -/
def SceneManager.sameRegistries {R : Type} (a b : SceneManager R) : Prop :=
  a.m_textureIDs = b.m_textureIDs ∧ a.m_loadedTextures = b.m_loadedTextures ∧
  a.m_objectMaterials = b.m_objectMaterials ∧
  a.m_pShaderManager.isSome = b.m_pShaderManager.isSome

/-- The scene manager and mesh calls that `PrepareScene` produces from `emptyScene` when
every file decodes to a 3-channel image and the textures get the names 1 to 6. -/
def preparedSample : Except Fault (SceneManager ℚ × List MeshCall) :=
  SceneManager.PrepareScene (decodeWith 3) (fun k => k + 1) emptyScene

/-- A camera that is its position on a line: moving adds the time step, the view matrix
is the identity and the zoom is 80 degrees. -/
def lineCamera : CameraOps ℚ ℚ :=
  ⟨fun c _ dt => c + dt, fun _ => 1, fun c => ⟨c, 0, 0⟩, fun _ => 80⟩

/-- The keys O and P held down together, and no other key. -/
def keysOP : Key → Bool := fun k => decide (k = Key.O ∨ k = Key.P)

/-- A view manager with the shading stage and a camera attached, in perspective mode. -/
def viewSample : ViewManager ℚ ℚ := ⟨some ⟨[]⟩, false, some 0, 0, 0, false⟩

/-! # Theorems -/

/-! ## Facts about the `glm` matrices -/

section GlmFacts

variable {R : Type} [CommRing R]

theorem glm_translate_eq (p : vec3 R) : glm.translate p = Translate p := by
  ext i j
  fin_cases i <;> fin_cases j <;> (simp [glm.translate, Translate] <;> rfl)

theorem glm_scale_eq (v : vec3 R) : glm.scale v = Scale v := by
  ext i j
  fin_cases i <;> fin_cases j <;> (simp [glm.scale, Scale] <;> rfl)

theorem glm_rotate_x (fm : ScalarMath R) (h : fm.inversesqrt 1 = 1) (t : R) :
    glm.rotate fm t ⟨1, 0, 0⟩ = RotateX fm t := by
  ext i j
  fin_cases i <;> fin_cases j <;> simp [glm.rotate, glm.normalize, glm.dot, RotateX, h]

theorem glm_rotate_y (fm : ScalarMath R) (h : fm.inversesqrt 1 = 1) (t : R) :
    glm.rotate fm t ⟨0, 1, 0⟩ = RotateY fm t := by
  ext i j
  fin_cases i <;> fin_cases j <;> simp [glm.rotate, glm.normalize, glm.dot, RotateY, h]

theorem glm_rotate_z (fm : ScalarMath R) (h : fm.inversesqrt 1 = 1) (t : R) :
    glm.rotate fm t ⟨0, 0, 1⟩ = RotateZ fm t := by
  ext i j
  fin_cases i <;> fin_cases j <;> simp [glm.rotate, glm.normalize, glm.dot, RotateZ, h]

end GlmFacts

/-! ## C1: the model matrix -/

/-- C1: with a shading stage attached, `SetTransformations` appends exactly one upload, to
the uniform `model`, of the matrix
`Translate position * RotateX (radians x) * RotateY (radians y) * RotateZ (radians z) * Scale scale`,
for every scale vector (no component is inspected or rejected), every triple of angles in
degrees and every position, over exact arithmetic. -/
theorem SetTransformations_uploads_model {R : Type} [CommRing R] (fm : ScalarMath R)
    (hone : fm.inversesqrt 1 = 1) (sh : ShaderManager R) (textures : List TEXTURE_INFO)
    (loaded : Nat) (materials : List (OBJECT_MATERIAL R)) (scaleXYZ : vec3 R)
    (XrotationDegrees YrotationDegrees ZrotationDegrees : R) (positionXYZ : vec3 R) :
    SceneManager.SetTransformations fm ⟨some sh, textures, loaded, materials⟩ scaleXYZ
        XrotationDegrees YrotationDegrees ZrotationDegrees positionXYZ
      = ⟨some ⟨sh.uploads ++ [("model", UniformValue.mat4
            (Translate positionXYZ * RotateX fm (fm.radians XrotationDegrees)
              * RotateY fm (fm.radians YrotationDegrees)
              * RotateZ fm (fm.radians ZrotationDegrees) * Scale scaleXYZ))]⟩,
          textures, loaded, materials⟩ := by
  simp only [SceneManager.SetTransformations, glm_translate_eq, glm_scale_eq,
    glm_rotate_x fm hone, glm_rotate_y fm hone, glm_rotate_z fm hone,
    ShaderManager.setMat4Value, ShaderManager.upload, g_ModelName]

/-- C1 at the scale `(2, -1, 2)` of the outer shell of the bowl. -/
theorem SetTransformations_uploads_model_witness :
    flatMath.inversesqrt 1 = 1 ∧
    SceneManager.SetTransformations flatMath ⟨some ⟨[]⟩, [], 0, []⟩ (⟨2, -1, 2⟩ : vec3 ℚ)
        10 0 0 ⟨0, 9 / 10, 0⟩
      = ⟨some ⟨[] ++ [("model", UniformValue.mat4
            (Translate ⟨0, 9 / 10, 0⟩ * RotateX flatMath (flatMath.radians 10)
              * RotateY flatMath (flatMath.radians 0)
              * RotateZ flatMath (flatMath.radians 0) * Scale ⟨2, -1, 2⟩))]⟩,
          [], 0, []⟩ :=
  ⟨rfl, SetTransformations_uploads_model flatMath rfl ⟨[]⟩ [] 0 [] ⟨2, -1, 2⟩ 10 0 0
    ⟨0, 9 / 10, 0⟩⟩

/-! ## C2 to C4: material lookup and the setters -/

/-- The loop of `FindMaterial` stops as soon as `bFound` is set. -/
theorem FindMaterial_loop_found {R : Type} (self : SceneManager R) (tag : String) (fuel : Nat)
    (index : Nat) (material : OBJECT_MATERIAL R) :
    SceneManager.FindMaterial.loop self tag (fuel + 1) index true material = .ok material := by
  simp [SceneManager.FindMaterial.loop]

/-- The loop of `FindMaterial` leaves `material` alone when no tag from `index` on matches. -/
theorem FindMaterial_loop_miss {R : Type} (self : SceneManager R) (tag : String) :
    ∀ (fuel index : Nat) (material : OBJECT_MATERIAL R),
      index ≤ self.m_objectMaterials.length →
      self.m_objectMaterials.length - index < fuel →
      (∀ i m, index ≤ i → self.m_objectMaterials[i]? = some m → m.tag ≠ tag) →
      SceneManager.FindMaterial.loop self tag fuel index false material = .ok material := by
  intro fuel
  induction fuel with
  | zero => intro index material _ hf _; omega
  | succ fuel ih =>
    intro index material hle hf hmiss
    rw [SceneManager.FindMaterial.loop]
    by_cases h : index < self.m_objectMaterials.length
    · have he : self.m_objectMaterials[index]? = some self.m_objectMaterials[index] :=
        List.getElem?_eq_getElem h
      have hne := hmiss index _ (Nat.le_refl _) he
      simp only [h, he, hne, and_self, if_true, if_false]
      exact ih (index + 1) material h (by omega)
        (fun i m hi hm => hmiss i m (by omega) hm)
    · simp [h]

/-- The loop of `FindMaterial` copies the five value fields of the first material from
`index` on whose tag matches. -/
theorem FindMaterial_loop_hit {R : Type} (self : SceneManager R) (tag : String) (j : Nat)
    (m : OBJECT_MATERIAL R) (hj : self.m_objectMaterials[j]? = some m) (ht : m.tag = tag) :
    ∀ (fuel index : Nat) (material : OBJECT_MATERIAL R),
      index ≤ j → j + 1 - index < fuel →
      (∀ i m0, index ≤ i → i < j → self.m_objectMaterials[i]? = some m0 → m0.tag ≠ tag) →
      SceneManager.FindMaterial.loop self tag fuel index false material
        = .ok { material with
                ambientColor := m.ambientColor
                ambientStrength := m.ambientStrength
                diffuseColor := m.diffuseColor
                specularColor := m.specularColor
                shininess := m.shininess } := by
  have hjlt : j < self.m_objectMaterials.length := by
    rcases Nat.lt_or_ge j self.m_objectMaterials.length with h | h
    · exact h
    · rw [List.getElem?_eq_none h] at hj; cases hj
  intro fuel
  induction fuel with
  | zero => intro index material _ hf _; omega
  | succ fuel ih =>
    intro index material hle hf hmiss
    rw [SceneManager.FindMaterial.loop]
    have h : index < self.m_objectMaterials.length := by omega
    rcases Nat.eq_or_lt_of_le hle with heq | hlt
    · subst heq
      simp only [h, hj, ht, and_self, if_true]
      obtain ⟨k, rfl⟩ : ∃ k, fuel = k + 1 := ⟨fuel - 1, by omega⟩
      exact FindMaterial_loop_found self tag k index _
    · have he : self.m_objectMaterials[index]? = some self.m_objectMaterials[index] :=
        List.getElem?_eq_getElem h
      have hne := hmiss index _ (Nat.le_refl _) hlt he
      simp only [h, he, hne, and_self, if_true, if_false]
      exact ih (index + 1) material hlt (by omega)
        (fun i m0 hi hij hm => hmiss i m0 (by omega) hij hm)

/-- C2: on an empty registry `FindMaterial` returns false for every tag and leaves the
out-parameter alone; on the registry that holds only `woodSample` the lookup of the
unregistered tag `glass` returns true, with the out-parameter unwritten. -/
theorem FindMaterial_unmatched_tag_returns_true :
    (∀ (sh : Option (ShaderManager ℚ)) (textures : List TEXTURE_INFO) (loaded : Nat)
        (tag : String) (material : OBJECT_MATERIAL ℚ),
        SceneManager.FindMaterial ⟨sh, textures, loaded, []⟩ tag material
          = .ok (false, material)) ∧
    oneMaterialScene.m_objectMaterials.map (fun m => m.tag) = ["wood"] ∧
    oneMaterialScene.FindMaterial "glass" staleMaterial = .ok (true, staleMaterial) :=
  ⟨fun _ _ _ _ _ => rfl, rfl, rfl⟩

/-- C3: with the shading stage attached and only `woodSample` registered,
`SetShaderMaterial` for the registered tag `wood` uploads the five material uniforms with
the values of `woodSample`, and for the unregistered tag `glass` it uploads five material
uniforms as well, taken from the indeterminate content of its local variable. -/
theorem SetShaderMaterial_unmatched_tag_uploads :
    oneMaterialScene.SetShaderMaterial "wood" staleMaterial
      = .ok ⟨some ⟨[("material.ambientColor", .vec3 woodSample.ambientColor),
                    ("material.ambientStrength", .float woodSample.ambientStrength),
                    ("material.diffuseColor", .vec3 woodSample.diffuseColor),
                    ("material.specularColor", .vec3 woodSample.specularColor),
                    ("material.shininess", .float woodSample.shininess)]⟩,
              [], 0, [woodSample]⟩ ∧
    oneMaterialScene.m_objectMaterials.map (fun m => m.tag) = ["wood"] ∧
    oneMaterialScene.SetShaderMaterial "glass" staleMaterial
      = .ok ⟨some ⟨[("material.ambientColor", .vec3 staleMaterial.ambientColor),
                    ("material.ambientStrength", .float staleMaterial.ambientStrength),
                    ("material.diffuseColor", .vec3 staleMaterial.diffuseColor),
                    ("material.specularColor", .vec3 staleMaterial.specularColor),
                    ("material.shininess", .float staleMaterial.shininess)]⟩,
              [], 0, [woodSample]⟩ := ⟨rfl, rfl, rfl⟩

/-- C4: with a `NULL` handle the setters `SetTransformations`, `SetShaderColor`,
`SetShaderTexture` and `SetTextureUVScale` return the scene manager unchanged for every
argument, whereas `SetShaderMaterial` for the registered tag `wood` calls through the
`NULL` handle. -/
theorem SetShaderMaterial_null_handle_dereferenced :
    (∀ (fm : ScalarMath ℚ) (textures : List TEXTURE_INFO) (loaded : Nat)
        (materials : List (OBJECT_MATERIAL ℚ)) (scaleXYZ positionXYZ : vec3 ℚ) (x y z : ℚ),
        SceneManager.SetTransformations fm ⟨none, textures, loaded, materials⟩ scaleXYZ x y z
          positionXYZ = ⟨none, textures, loaded, materials⟩) ∧
    (∀ (textures : List TEXTURE_INFO) (loaded : Nat) (materials : List (OBJECT_MATERIAL ℚ))
        (r g b a : ℚ),
        SceneManager.SetShaderColor ⟨none, textures, loaded, materials⟩ r g b a
          = ⟨none, textures, loaded, materials⟩) ∧
    (∀ (textures : List TEXTURE_INFO) (loaded : Nat) (materials : List (OBJECT_MATERIAL ℚ))
        (textureTag : String),
        SceneManager.SetShaderTexture ⟨none, textures, loaded, materials⟩ textureTag
          = .ok ⟨none, textures, loaded, materials⟩) ∧
    (∀ (textures : List TEXTURE_INFO) (loaded : Nat) (materials : List (OBJECT_MATERIAL ℚ))
        (u v : ℚ),
        SceneManager.SetTextureUVScale ⟨none, textures, loaded, materials⟩ u v
          = ⟨none, textures, loaded, materials⟩) ∧
    noShaderScene.SetShaderMaterial "wood" staleMaterial = .error .nullDeref :=
  ⟨fun _ _ _ _ _ _ _ _ _ => rfl, fun _ _ _ _ _ _ _ => rfl, fun _ _ _ _ => rfl,
    fun _ _ _ _ _ => rfl, rfl⟩

/-! ## Texture lookup -/

/-- Inside the loaded count of a registry that fits its array, every entry can be read. -/
theorem textureEntry_readable {R : Type} (self : SceneManager R)
    (hfit : self.m_loadedTextures ≤ self.m_textureIDs.length) (i : Nat)
    (hi : i < self.m_loadedTextures) : ∃ e, self.m_textureIDs[i]? = some e :=
  ⟨self.m_textureIDs[i], List.getElem?_eq_getElem (by omega)⟩

/-- The loop of `FindTextureSlot` stops as soon as `bFound` is set. -/
theorem FindTextureSlot_loop_found {R : Type} (self : SceneManager R) (tag : String)
    (fuel : Nat) (textureSlot : Int) (index : Nat) :
    SceneManager.FindTextureSlot.loop self tag (fuel + 1) textureSlot index true
      = .ok textureSlot := by
  simp [SceneManager.FindTextureSlot.loop]

/-- The loop of `FindTextureSlot` keeps `textureSlot` when no tag from `index` on matches. -/
theorem FindTextureSlot_loop_miss {R : Type} (self : SceneManager R) (tag : String)
    (hfit : self.m_loadedTextures ≤ self.m_textureIDs.length) :
    ∀ (fuel index : Nat) (textureSlot : Int),
      index ≤ self.m_loadedTextures →
      self.m_loadedTextures - index < fuel →
      (∀ i e, index ≤ i → i < self.m_loadedTextures → self.m_textureIDs[i]? = some e →
        e.tag ≠ tag) →
      SceneManager.FindTextureSlot.loop self tag fuel textureSlot index false
        = .ok textureSlot := by
  intro fuel
  induction fuel with
  | zero => intro index textureSlot _ hf _; omega
  | succ fuel ih =>
    intro index textureSlot hle hf hmiss
    rw [SceneManager.FindTextureSlot.loop]
    by_cases h : index < self.m_loadedTextures
    · obtain ⟨e, he⟩ := textureEntry_readable self hfit index h
      have hne := hmiss index e (Nat.le_refl _) h he
      simp only [h, he, hne, and_self, if_true, if_false]
      exact ih (index + 1) textureSlot h (by omega)
        (fun i e0 hi hin hm => hmiss i e0 (by omega) hin hm)
    · simp [h]

/-- The loop of `FindTextureSlot` returns the index of the first entry from `index` on
whose tag matches. -/
theorem FindTextureSlot_loop_hit {R : Type} (self : SceneManager R) (tag : String)
    (hfit : self.m_loadedTextures ≤ self.m_textureIDs.length) (j : Nat) (e : TEXTURE_INFO)
    (hjn : j < self.m_loadedTextures) (hj : self.m_textureIDs[j]? = some e)
    (ht : e.tag = tag) :
    ∀ (fuel index : Nat) (textureSlot : Int),
      index ≤ j → j + 1 - index < fuel →
      (∀ i e0, index ≤ i → i < j → self.m_textureIDs[i]? = some e0 → e0.tag ≠ tag) →
      SceneManager.FindTextureSlot.loop self tag fuel textureSlot index false
        = .ok (j : Int) := by
  intro fuel
  induction fuel with
  | zero => intro index textureSlot _ hf _; omega
  | succ fuel ih =>
    intro index textureSlot hle hf hmiss
    rw [SceneManager.FindTextureSlot.loop]
    have h : index < self.m_loadedTextures := by omega
    rcases Nat.eq_or_lt_of_le hle with heq | hlt
    · subst heq
      simp only [h, hj, ht, and_self, if_true]
      obtain ⟨k, rfl⟩ : ∃ k, fuel = k + 1 := ⟨fuel - 1, by omega⟩
      exact FindTextureSlot_loop_found self tag k _ index
    · obtain ⟨e1, he⟩ := textureEntry_readable self hfit index h
      have hne := hmiss index e1 (Nat.le_refl _) hlt he
      simp only [h, he, hne, and_self, if_true, if_false]
      exact ih (index + 1) textureSlot hlt (by omega)
        (fun i e0 hi hij hm => hmiss i e0 (by omega) hij hm)

/-- The loop of `FindTextureID` stops as soon as `bFound` is set. -/
theorem FindTextureID_loop_found {R : Type} (self : SceneManager R) (tag : String)
    (fuel : Nat) (textureID : Int) (index : Nat) :
    SceneManager.FindTextureID.loop self tag (fuel + 1) textureID index true
      = .ok textureID := by
  simp [SceneManager.FindTextureID.loop]

/-- The loop of `FindTextureID` keeps `textureID` when no tag from `index` on matches. -/
theorem FindTextureID_loop_miss {R : Type} (self : SceneManager R) (tag : String)
    (hfit : self.m_loadedTextures ≤ self.m_textureIDs.length) :
    ∀ (fuel index : Nat) (textureID : Int),
      index ≤ self.m_loadedTextures →
      self.m_loadedTextures - index < fuel →
      (∀ i e, index ≤ i → i < self.m_loadedTextures → self.m_textureIDs[i]? = some e →
        e.tag ≠ tag) →
      SceneManager.FindTextureID.loop self tag fuel textureID index false
        = .ok textureID := by
  intro fuel
  induction fuel with
  | zero => intro index textureID _ hf _; omega
  | succ fuel ih =>
    intro index textureID hle hf hmiss
    rw [SceneManager.FindTextureID.loop]
    by_cases h : index < self.m_loadedTextures
    · obtain ⟨e, he⟩ := textureEntry_readable self hfit index h
      have hne := hmiss index e (Nat.le_refl _) h he
      simp only [h, he, hne, and_self, if_true, if_false]
      exact ih (index + 1) textureID h (by omega)
        (fun i e0 hi hin hm => hmiss i e0 (by omega) hin hm)
    · simp [h]

/-- The loop of `FindTextureID` returns the handle, read as an `int`, of the first entry
from `index` on whose tag matches. -/
theorem FindTextureID_loop_hit {R : Type} (self : SceneManager R) (tag : String)
    (hfit : self.m_loadedTextures ≤ self.m_textureIDs.length) (j : Nat) (e : TEXTURE_INFO)
    (hjn : j < self.m_loadedTextures) (hj : self.m_textureIDs[j]? = some e)
    (ht : e.tag = tag) :
    ∀ (fuel index : Nat) (textureID : Int),
      index ≤ j → j + 1 - index < fuel →
      (∀ i e0, index ≤ i → i < j → self.m_textureIDs[i]? = some e0 → e0.tag ≠ tag) →
      SceneManager.FindTextureID.loop self tag fuel textureID index false
        = .ok (toInt32 e.ID) := by
  intro fuel
  induction fuel with
  | zero => intro index textureID _ hf _; omega
  | succ fuel ih =>
    intro index textureID hle hf hmiss
    rw [SceneManager.FindTextureID.loop]
    have h : index < self.m_loadedTextures := by omega
    rcases Nat.eq_or_lt_of_le hle with heq | hlt
    · subst heq
      simp only [h, hj, ht, and_self, if_true]
      obtain ⟨k, rfl⟩ : ∃ k, fuel = k + 1 := ⟨fuel - 1, by omega⟩
      exact FindTextureID_loop_found self tag k _ index
    · obtain ⟨e1, he⟩ := textureEntry_readable self hfit index h
      have hne := hmiss index e1 (Nat.le_refl _) hlt he
      simp only [h, he, hne, and_self, if_true, if_false]
      exact ih (index + 1) textureID hlt (by omega)
        (fun i e0 hi hij hm => hmiss i e0 (by omega) hij hm)

/-- A registered tag has a first entry that carries it. -/
theorem first_carrier_exists {R : Type} (self : SceneManager R) (tag : String)
    (hex : ∃ i e, i < self.m_loadedTextures ∧ self.m_textureIDs[i]? = some e ∧ e.tag = tag) :
    ∃ j e, j < self.m_loadedTextures ∧ self.m_textureIDs[j]? = some e ∧ e.tag = tag ∧
      ∀ i e0, i < j → self.m_textureIDs[i]? = some e0 → e0.tag ≠ tag := by
  classical
  have hP : ∃ i, ∃ e, i < self.m_loadedTextures ∧ self.m_textureIDs[i]? = some e ∧ e.tag = tag :=
    hex
  obtain ⟨e, hlt, he, ht⟩ := Nat.find_spec hP
  refine ⟨Nat.find hP, e, hlt, he, ht, ?_⟩
  intro i e0 hi he0 ht0
  exact Nat.find_min hP hi ⟨e0, by omega, he0, ht0⟩

/-- The lookup of a tag whose first carrier is entry `j`. -/
theorem FindTexture_first_carrier {R : Type} (self : SceneManager R) (tag : String)
    (hfit : self.m_loadedTextures ≤ self.m_textureIDs.length) (j : Nat) (e : TEXTURE_INFO)
    (hjn : j < self.m_loadedTextures) (hj : self.m_textureIDs[j]? = some e)
    (ht : e.tag = tag)
    (hfirst : ∀ i e0, i < j → self.m_textureIDs[i]? = some e0 → e0.tag ≠ tag) :
    self.FindTextureSlot tag = .ok (j : Int) ∧ self.FindTextureID tag = .ok (toInt32 e.ID) :=
  ⟨FindTextureSlot_loop_hit self tag hfit j e hjn hj ht _ 0 (-1) (Nat.zero_le _) (by omega)
      (fun i e0 _ hij hm => hfirst i e0 hij hm),
    FindTextureID_loop_hit self tag hfit j e hjn hj ht _ 0 (-1) (Nat.zero_le _) (by omega)
      (fun i e0 _ hij hm => hfirst i e0 hij hm)⟩

/-- The lookup of a tag that no entry carries. -/
theorem FindTexture_no_carrier {R : Type} (self : SceneManager R) (tag : String)
    (hfit : self.m_loadedTextures ≤ self.m_textureIDs.length)
    (hnone : ∀ i e, i < self.m_loadedTextures → self.m_textureIDs[i]? = some e → e.tag ≠ tag) :
    self.FindTextureSlot tag = .ok (-1) ∧ self.FindTextureID tag = .ok (-1) :=
  ⟨FindTextureSlot_loop_miss self tag hfit _ 0 (-1) (Nat.zero_le _) (by omega)
      (fun i e _ hin hm => hnone i e hin hm),
    FindTextureID_loop_miss self tag hfit _ 0 (-1) (Nat.zero_le _) (by omega)
      (fun i e _ hin hm => hnone i e hin hm)⟩

/-- The value `-1` is the `int` reading of exactly one unsigned 32-bit value. -/
theorem toInt32_eq_neg_one (n : Nat) : toInt32 n = -1 ↔ n % 2 ^ 32 = 2 ^ 32 - 1 := by
  unfold toInt32
  split <;> omega

/-- Below `2 ^ 31` the `int` reading of a handle is the handle. -/
theorem toInt32_of_lt (n : Nat) (h : n < 2 ^ 31) : toInt32 n = (n : Int) := by
  unfold toInt32
  have : n % 2 ^ 32 = n := Nat.mod_eq_of_lt (by omega)
  rw [this, if_pos h]

/-! ## C5 to C7: the texture registry -/

/-- What a successful `CreateGLTexture` returns. -/
theorem CreateGLTexture_true {R : Type} (stbi_load : String → Option Image) (textureID : Nat)
    (self result : SceneManager R) (filename tag : String)
    (h : SceneManager.CreateGLTexture stbi_load textureID self filename tag
      = .ok (true, result)) :
    self.m_loadedTextures < self.m_textureIDs.length ∧
    (∃ image, stbi_load filename = some image ∧
      (image.colorChannels = 3 ∨ image.colorChannels = 4)) ∧
    result = { self with
      m_textureIDs := self.m_textureIDs.set self.m_loadedTextures ⟨textureID, tag⟩
      m_loadedTextures := self.m_loadedTextures + 1 } := by
  unfold SceneManager.CreateGLTexture at h
  cases hd : stbi_load filename with
  | none => simp [hd] at h
  | some image =>
    simp only [hd] at h
    by_cases hc : image.colorChannels = 3 ∨ image.colorChannels = 4
    · by_cases hr : self.m_loadedTextures < self.m_textureIDs.length
      · simp only [hc, hr, if_true, Except.ok.injEq, Prod.mk.injEq, true_and] at h
        exact ⟨hr, ⟨image, rfl, hc⟩, h.symm⟩
      · simp [hc, hr] at h
    · simp [hc] at h

/-- C5: after a successful `CreateGLTexture(file, tag)` the lookup `FindTextureSlot(tag)`
returns an index `s` with `0 <= s < m_loadedTextures`; and in a registry that fits its array
`FindTextureSlot` returns `-1` for every tag that no registered entry carries. -/
theorem FindTextureSlot_after_CreateGLTexture {R : Type} :
    (∀ (stbi_load : String → Option Image) (textureID : Nat) (self result : SceneManager R)
        (filename tag : String),
        SceneManager.CreateGLTexture stbi_load textureID self filename tag
          = .ok (true, result) →
        ∃ s : Int, result.FindTextureSlot tag = .ok s ∧ 0 ≤ s ∧
          s < (result.m_loadedTextures : Int)) ∧
    (∀ (self : SceneManager R) (tag : String),
        self.m_loadedTextures ≤ self.m_textureIDs.length →
        (∀ i e, i < self.m_loadedTextures → self.m_textureIDs[i]? = some e → e.tag ≠ tag) →
        self.FindTextureSlot tag = .ok (-1)) := by
  refine ⟨?_, fun self tag hfit hnone => (FindTexture_no_carrier self tag hfit hnone).1⟩
  intro stbi_load textureID self result filename tag h
  obtain ⟨hroom, _, hres⟩ := CreateGLTexture_true stbi_load textureID self result filename tag h
  subst hres
  have hfit : self.m_loadedTextures + 1 ≤
      (self.m_textureIDs.set self.m_loadedTextures ⟨textureID, tag⟩).length := by
    rw [List.length_set]; omega
  have hnew : (self.m_textureIDs.set self.m_loadedTextures ⟨textureID, tag⟩)[self.m_loadedTextures]?
      = some ⟨textureID, tag⟩ := List.getElem?_set_self hroom
  obtain ⟨j, e, hj, he, ht, hfirst⟩ := first_carrier_exists
    (R := R) { self with
      m_textureIDs := self.m_textureIDs.set self.m_loadedTextures ⟨textureID, tag⟩
      m_loadedTextures := self.m_loadedTextures + 1 } tag
    ⟨self.m_loadedTextures, ⟨textureID, tag⟩, Nat.lt_succ_self _, hnew, rfl⟩
  refine ⟨(j : Int), (FindTexture_first_carrier _ tag hfit j e hj he ht hfirst).1, ?_, ?_⟩
  · exact Int.ofNat_nonneg j
  · exact Int.ofNat_lt.mpr hj

/-- C5 on concrete registries: `wood` is loaded into the empty registry and found at a slot
below the loaded count, and `glass`, which `shadowScene` does not carry, is not found. -/
theorem FindTextureSlot_after_CreateGLTexture_witness :
    (SceneManager.CreateGLTexture (decodeWith 3) 7 emptyScene "textures/wood.jpg" "wood"
        = .ok (true, ⟨some ⟨[]⟩, ⟨7, "wood"⟩ :: List.replicate 15 ⟨0, ""⟩, 1, []⟩) ∧
      ∃ s : Int, SceneManager.FindTextureSlot (R := ℚ)
          ⟨some ⟨[]⟩, ⟨7, "wood"⟩ :: List.replicate 15 ⟨0, ""⟩, 1, []⟩ "wood" = .ok s ∧
        0 ≤ s ∧ s < ((1 : Nat) : Int)) ∧
    (shadowScene.m_loadedTextures ≤ shadowScene.m_textureIDs.length ∧
      shadowScene.FindTextureSlot "glass" = .ok (-1)) :=
  ⟨⟨rfl, FindTextureSlot_after_CreateGLTexture.1 (decodeWith 3) 7 emptyScene _
      "textures/wood.jpg" "wood" rfl⟩,
    by decide,
    FindTextureSlot_after_CreateGLTexture.2 shadowScene "glass" (by decide) (by
      intro i e hi he
      have hi3 : i < 3 := hi
      interval_cases i <;> simp [shadowScene, shadowTextures] at he <;> subst he <;> decide)⟩

/-- C6: when the registry has a free array element, `CreateGLTexture` returns true if and
only if the decoder returns an image with 3 or 4 channels; a true return stores
`(textureID, tag)` at the index of the previous loaded count, raises the count by one and
changes no other entry; and whenever decoding fails or the channel count is neither 3 nor 4
it returns false with the scene manager unchanged, in every registry. -/
theorem CreateGLTexture_succeeds_iff {R : Type} (stbi_load : String → Option Image)
    (textureID : Nat) (self : SceneManager R) (filename tag : String) :
    (self.m_loadedTextures < self.m_textureIDs.length →
      ((∃ result, SceneManager.CreateGLTexture stbi_load textureID self filename tag
            = .ok (true, result)) ↔
        ∃ image, stbi_load filename = some image ∧
          (image.colorChannels = 3 ∨ image.colorChannels = 4))) ∧
    (∀ result, SceneManager.CreateGLTexture stbi_load textureID self filename tag
          = .ok (true, result) →
        result.m_loadedTextures = self.m_loadedTextures + 1 ∧
        result.m_textureIDs[self.m_loadedTextures]? = some ⟨textureID, tag⟩ ∧
        (∀ i, i ≠ self.m_loadedTextures → result.m_textureIDs[i]? = self.m_textureIDs[i]?) ∧
        result.m_textureIDs.length = self.m_textureIDs.length ∧
        result.m_pShaderManager = self.m_pShaderManager ∧
        result.m_objectMaterials = self.m_objectMaterials) ∧
    ((¬ ∃ image, stbi_load filename = some image ∧
          (image.colorChannels = 3 ∨ image.colorChannels = 4)) →
      SceneManager.CreateGLTexture stbi_load textureID self filename tag
        = .ok (false, self)) := by
  refine ⟨fun hroom => ⟨?_, ?_⟩, ?_, ?_⟩
  · rintro ⟨result, h⟩
    exact (CreateGLTexture_true stbi_load textureID self result filename tag h).2.1
  · rintro ⟨image, hd, hc⟩
    refine ⟨{ self with
      m_textureIDs := self.m_textureIDs.set self.m_loadedTextures ⟨textureID, tag⟩
      m_loadedTextures := self.m_loadedTextures + 1 }, ?_⟩
    simp only [SceneManager.CreateGLTexture, hd, hc, hroom, if_true]
  · intro result h
    obtain ⟨hroom, _, hres⟩ :=
      CreateGLTexture_true stbi_load textureID self result filename tag h
    subst hres
    refine ⟨rfl, List.getElem?_set_self hroom, ?_, List.length_set _ _ _, rfl, rfl⟩
    intro i hi
    exact List.getElem?_set_ne (Ne.symm hi)
  · intro hno
    unfold SceneManager.CreateGLTexture
    cases hd : stbi_load filename with
    | none => rfl
    | some image =>
      have hc : ¬ (image.colorChannels = 3 ∨ image.colorChannels = 4) :=
        fun hc => hno ⟨image, hd, hc⟩
      simp only [hc, if_false]

/-- C6 on the empty registry: a 4-channel image is registered, a 1-channel image and a
failed decoding are not. -/
theorem CreateGLTexture_succeeds_iff_witness :
    emptyScene.m_loadedTextures < emptyScene.m_textureIDs.length ∧
    ((∃ result, SceneManager.CreateGLTexture (decodeWith 4) 7 emptyScene "textures/wood.jpg"
          "wood" = .ok (true, result)) ↔
      ∃ image, decodeWith 4 "textures/wood.jpg" = some image ∧
        (image.colorChannels = 3 ∨ image.colorChannels = 4)) ∧
    SceneManager.CreateGLTexture (decodeWith 1) 7 emptyScene "textures/wood.jpg" "wood"
      = .ok (false, emptyScene) ∧
    SceneManager.CreateGLTexture decodeFails 7 emptyScene "textures/wood.jpg" "wood"
      = .ok (false, emptyScene) :=
  ⟨by decide,
    (CreateGLTexture_succeeds_iff (decodeWith 4) 7 emptyScene "textures/wood.jpg" "wood").1
      (by decide),
    (CreateGLTexture_succeeds_iff (decodeWith 1) 7 emptyScene "textures/wood.jpg"
      "wood").2.2 (by
        rintro ⟨image, hd, hc⟩
        simp only [decodeWith, Option.some.injEq] at hd
        subst hd
        revert hc
        decide),
    (CreateGLTexture_succeeds_iff decodeFails 7 emptyScene "textures/wood.jpg"
      "wood").2.2 (by
        rintro ⟨image, hd, _⟩
        simp [decodeFails] at hd)⟩

/-- Every lookup in a registry that fits its array ends in one of two ways: at the first
carrier of the tag, or with `-1` when there is no carrier. -/
theorem texture_lookup_total {R : Type} (self : SceneManager R) (tag : String)
    (hfit : self.m_loadedTextures ≤ self.m_textureIDs.length) :
    (∃ j e, j < self.m_loadedTextures ∧ self.m_textureIDs[j]? = some e ∧ e.tag = tag ∧
        (∀ i e0, i < j → self.m_textureIDs[i]? = some e0 → e0.tag ≠ tag) ∧
        self.FindTextureSlot tag = .ok (j : Int) ∧
        self.FindTextureID tag = .ok (toInt32 e.ID)) ∨
    ((∀ i e, i < self.m_loadedTextures → self.m_textureIDs[i]? = some e → e.tag ≠ tag) ∧
        self.FindTextureSlot tag = .ok (-1) ∧ self.FindTextureID tag = .ok (-1)) := by
  by_cases hex : ∃ i e, i < self.m_loadedTextures ∧ self.m_textureIDs[i]? = some e ∧ e.tag = tag
  · obtain ⟨j, e, hj, he, ht, hfirst⟩ := first_carrier_exists self tag hex
    obtain ⟨h1, h2⟩ := FindTexture_first_carrier self tag hfit j e hj he ht hfirst
    exact Or.inl ⟨j, e, hj, he, ht, hfirst, h1, h2⟩
  · have hnone : ∀ i e, i < self.m_loadedTextures → self.m_textureIDs[i]? = some e →
        e.tag ≠ tag := fun i e hi he ht => hex ⟨i, e, hi, he, ht⟩
    obtain ⟨h1, h2⟩ := FindTexture_no_carrier self tag hfit hnone
    exact Or.inr ⟨hnone, h1, h2⟩

/-- C7, a registry on which it fails: in `maxHandleScene` entry 0 carries the tag `wood`, and
`FindTextureID` returns `-1` for `wood` all the same, because the stored handle
`4294967295` reads as `-1` once converted to `int`. -/
theorem FindTextureID_neg_one_for_registered_tag :
    maxHandleScene.m_loadedTextures ≤ maxHandleScene.m_textureIDs.length ∧
    0 < maxHandleScene.m_loadedTextures ∧
    maxHandleScene.m_textureIDs[0]? = some ⟨4294967295, "wood"⟩ ∧
    maxHandleScene.FindTextureSlot "wood" = .ok 0 ∧
    maxHandleScene.FindTextureID "wood" = .ok (-1) :=
  ⟨by decide, by decide, rfl, rfl, rfl⟩

/-- C7, amended: in a registry that fits its array (duplicate tags allowed), when entry `j`
is the first one that carries the tag, `FindTextureSlot` returns `j` and `FindTextureID`
returns the handle stored at `j` read as an `int` (the handle itself when it is below
`2 ^ 31`), whatever later entries carry; when no entry carries the tag both return `-1`;
`FindTextureSlot` returns `-1` only then, and `FindTextureID` returns `-1` only then or when
the handle of the first carrier is `2 ^ 32 - 1`. -/
theorem texture_lookup_first_match {R : Type} (self : SceneManager R) (tag : String)
    (hfit : self.m_loadedTextures ≤ self.m_textureIDs.length) :
    (∀ j e, j < self.m_loadedTextures → self.m_textureIDs[j]? = some e → e.tag = tag →
        (∀ i e0, i < j → self.m_textureIDs[i]? = some e0 → e0.tag ≠ tag) →
        self.FindTextureSlot tag = .ok (j : Int) ∧
        self.FindTextureID tag = .ok (toInt32 e.ID) ∧
        (e.ID < 2 ^ 31 → self.FindTextureID tag = .ok (e.ID : Int)) ∧
        (self.FindTextureID tag = .ok (-1) → e.ID % 2 ^ 32 = 2 ^ 32 - 1)) ∧
    ((∀ i e, i < self.m_loadedTextures → self.m_textureIDs[i]? = some e → e.tag ≠ tag) →
        self.FindTextureSlot tag = .ok (-1) ∧ self.FindTextureID tag = .ok (-1)) ∧
    (self.FindTextureSlot tag = .ok (-1) →
        ∀ i e, i < self.m_loadedTextures → self.m_textureIDs[i]? = some e → e.tag ≠ tag) := by
  refine ⟨?_, FindTexture_no_carrier self tag hfit, ?_⟩
  · intro j e hj he ht hfirst
    obtain ⟨hslot, hid⟩ := FindTexture_first_carrier self tag hfit j e hj he ht hfirst
    refine ⟨hslot, hid, ?_, ?_⟩
    · intro hlt
      rw [hid, toInt32_of_lt e.ID hlt]
    · intro hneg
      rw [hid] at hneg
      exact (toInt32_eq_neg_one e.ID).mp (Except.ok.inj hneg)
  · intro hslot i e hi he ht
    obtain ⟨j, e1, hj, he1, ht1, hfirst⟩ := first_carrier_exists self tag ⟨i, e, hi, he, ht⟩
    have h := (FindTexture_first_carrier self tag hfit j e1 hj he1 ht1 hfirst).1
    rw [hslot] at h
    have h2 : (-1 : Int) = (j : Int) := Except.ok.inj h
    omega

/-- C7, amended, on `shadowScene`: the tag `wood` is carried by the entries 0 and 2, and
the lookups return slot 0 and the handle 7 of entry 0. -/
theorem texture_lookup_first_match_witness :
    shadowScene.m_loadedTextures ≤ shadowScene.m_textureIDs.length ∧
    shadowScene.m_textureIDs[2]? = some ⟨11, "wood"⟩ ∧
    shadowScene.FindTextureSlot "wood" = .ok ((0 : Nat) : Int) ∧
    shadowScene.FindTextureID "wood" = .ok (toInt32 7) ∧
    shadowScene.FindTextureID "wood" = .ok ((7 : Nat) : Int) :=
  have h := (texture_lookup_first_match shadowScene "wood" (by decide)).1 0 ⟨7, "wood"⟩
    (by decide) rfl rfl (fun i _ hi _ => absurd hi (Nat.not_lt_zero i))
  ⟨by decide, rfl, h.1, h.2.1, h.2.2.1 (by decide)⟩

/-! ## C9: the texture setter -/

/-- C9: with a shading stage attached and a registry that fits its array,
`SetShaderTexture` appends exactly two uploads, first `bUseTexture` set to true (the
integer 1) and then the sampler `objectTexture` set to the result of `FindTextureSlot`:
the index of the first entry that carries the tag, and `-1` when no entry carries it. -/
theorem SetShaderTexture_uploads_slot {R : Type} (sh : ShaderManager R)
    (textures : List TEXTURE_INFO) (loaded : Nat) (materials : List (OBJECT_MATERIAL R))
    (textureTag : String) (hfit : loaded ≤ textures.length) :
    ∃ slot : Int,
      SceneManager.FindTextureSlot ⟨some sh, textures, loaded, materials⟩ textureTag
        = .ok slot ∧
      SceneManager.SetShaderTexture ⟨some sh, textures, loaded, materials⟩ textureTag
        = .ok ⟨some ⟨sh.uploads ++
            [("bUseTexture", UniformValue.int 1), ("objectTexture", UniformValue.sampler2D slot)]⟩,
          textures, loaded, materials⟩ ∧
      (∀ j e, j < loaded → textures[j]? = some e → e.tag = textureTag →
        (∀ i e0, i < j → textures[i]? = some e0 → e0.tag ≠ textureTag) → slot = (j : Int)) ∧
      ((∀ i e, i < loaded → textures[i]? = some e → e.tag ≠ textureTag) → slot = -1) := by
  have key : ∀ slot : Int,
      SceneManager.FindTextureSlot ⟨some sh, textures, loaded, materials⟩ textureTag
        = .ok slot →
      SceneManager.SetShaderTexture ⟨some sh, textures, loaded, materials⟩ textureTag
        = .ok ⟨some ⟨sh.uploads ++
            [("bUseTexture", UniformValue.int 1), ("objectTexture", UniformValue.sampler2D slot)]⟩,
          textures, loaded, materials⟩ := by
    intro slot hslot
    simp [SceneManager.SetShaderTexture, hslot, ShaderManager.setIntValue,
      ShaderManager.setSampler2DValue, ShaderManager.upload, g_UseTextureName,
      g_TextureValueName]
  have hall := texture_lookup_total (R := R) ⟨some sh, textures, loaded, materials⟩ textureTag hfit
  rcases hall with ⟨j, e, hj, he, ht, hfirst, hslot, _⟩ | ⟨hnone, hslot, _⟩
  · refine ⟨(j : Int), hslot, key _ hslot, ?_, ?_⟩
    · intro j2 e2 hj2 he2 ht2 hfirst2
      have h := (FindTexture_first_carrier (R := R) ⟨some sh, textures, loaded, materials⟩
        textureTag hfit j2 e2 hj2 he2 ht2 hfirst2).1
      rw [hslot] at h
      exact Except.ok.inj h
    · intro hnone
      exact absurd ht (hnone j e hj he)
  · refine ⟨-1, hslot, key _ hslot, ?_, fun _ => rfl⟩
    intro j2 e2 hj2 he2 ht2 _
    exact absurd ht2 (hnone j2 e2 hj2 he2)

/-- C9 on `shadowScene`: the sampler receives slot 0, the first of the two entries tagged
`wood`. -/
theorem SetShaderTexture_uploads_slot_witness :
    (3 : Nat) ≤ shadowTextures.length ∧
    ∃ slot : Int,
      SceneManager.FindTextureSlot (R := ℚ) ⟨some ⟨[]⟩, shadowTextures, 3, []⟩ "wood"
        = .ok slot ∧
      SceneManager.SetShaderTexture (R := ℚ) ⟨some ⟨[]⟩, shadowTextures, 3, []⟩ "wood"
        = .ok ⟨some ⟨[] ++
            [("bUseTexture", UniformValue.int 1), ("objectTexture", UniformValue.sampler2D slot)]⟩,
          shadowTextures, 3, []⟩ ∧
      slot = ((0 : Nat) : Int) :=
  ⟨by decide,
    (SetShaderTexture_uploads_slot (R := ℚ) ⟨[]⟩ shadowTextures 3 [] "wood" (by decide)).imp
      (fun _ h => ⟨h.1, h.2.1, h.2.2.1 0 ⟨7, "wood"⟩ (by decide) rfl rfl
        (fun i _ hi _ => absurd hi (Nat.not_lt_zero i))⟩)⟩

/-! ## C8: duplicate material tags -/

/-- C8: `DefineObjectMaterials` appends its two materials, tagged `wood` and `counter`, to
every registry, whatever tags the registry holds already; and in every registry, when the
material at index `j` is the first one that carries the tag (other materials with the same
tag may follow), `FindMaterial` returns true and the out-parameter holds the ambient colour,
ambient strength, diffuse colour, specular colour and shininess of that first material. -/
theorem FindMaterial_first_registered {R : Type} [Field R] :
    (∀ self : SceneManager R,
        (SceneManager.DefineObjectMaterials self).m_objectMaterials.map (fun m => m.tag)
          = self.m_objectMaterials.map (fun m => m.tag) ++ ["wood", "counter"] ∧
        (SceneManager.DefineObjectMaterials self).m_objectMaterials.take
          self.m_objectMaterials.length = self.m_objectMaterials) ∧
    (∀ (self : SceneManager R) (tag : String) (material : OBJECT_MATERIAL R) (j : Nat)
        (m : OBJECT_MATERIAL R),
        self.m_objectMaterials[j]? = some m → m.tag = tag →
        (∀ i m0, i < j → self.m_objectMaterials[i]? = some m0 → m0.tag ≠ tag) →
        self.FindMaterial tag material
          = .ok (true, { material with
                ambientColor := m.ambientColor
                ambientStrength := m.ambientStrength
                diffuseColor := m.diffuseColor
                specularColor := m.specularColor
                shininess := m.shininess })) := by
  refine ⟨fun self => ⟨?_, ?_⟩, ?_⟩
  · simp [SceneManager.DefineObjectMaterials]
  · simp [SceneManager.DefineObjectMaterials]
  · intro self tag material j m hj ht hfirst
    have hjlt : j < self.m_objectMaterials.length := by
      rcases Nat.lt_or_ge j self.m_objectMaterials.length with h | h
      · exact h
      · rw [List.getElem?_eq_none h] at hj; cases hj
    have hne : ¬ self.m_objectMaterials.length = 0 := by omega
    have hloop := FindMaterial_loop_hit self tag j m hj ht
      (self.m_objectMaterials.length + 1) 0 material (Nat.zero_le _) (by omega)
      (fun i m0 _ hij hm => hfirst i m0 hij hm)
    simp only [SceneManager.FindMaterial, hne, if_false, hloop]

/-- C8 on concrete registries: defining the materials twice keeps both copies, and the
lookup of `wood` in `shadowMaterials` returns the values of `woodSample`, the first of its
two materials tagged `wood`. -/
theorem FindMaterial_first_registered_witness :
    (SceneManager.DefineObjectMaterials
        (SceneManager.DefineObjectMaterials emptyScene)).m_objectMaterials.map (fun m => m.tag)
      = (SceneManager.DefineObjectMaterials emptyScene).m_objectMaterials.map (fun m => m.tag)
          ++ ["wood", "counter"] ∧
    shadowMaterials.m_objectMaterials[0]? = some woodSample ∧
    shadowMaterials.m_objectMaterials[1]? = some woodLater ∧
    woodSample.tag = "wood" ∧ woodLater.tag = "wood" ∧
    shadowMaterials.FindMaterial "wood" staleMaterial
      = .ok (true, { staleMaterial with
            ambientColor := woodSample.ambientColor
            ambientStrength := woodSample.ambientStrength
            diffuseColor := woodSample.diffuseColor
            specularColor := woodSample.specularColor
            shininess := woodSample.shininess }) :=
  ⟨(FindMaterial_first_registered.1 (SceneManager.DefineObjectMaterials emptyScene)).1,
    rfl, rfl, rfl, rfl,
    FindMaterial_first_registered.2 shadowMaterials "wood" staleMaterial 0 woodSample rfl rfl
      (fun i _ hi _ => absurd hi (Nat.not_lt_zero i))⟩

/-! ## C10: binding the textures -/

/-- The loop of `BindGLTextures` issues the calls of `bindCalls` for the entries from `i`
up to the loaded count. -/
theorem BindGLTextures_loop_eq {R : Type} (self : SceneManager R)
    (hfit : self.m_loadedTextures ≤ self.m_textureIDs.length) :
    ∀ (fuel i : Nat) (calls : List GLCall),
      i ≤ self.m_loadedTextures → self.m_loadedTextures - i < fuel →
      SceneManager.BindGLTextures.loop self fuel i calls
        = .ok (calls ++ bindCalls i ((self.m_textureIDs.take self.m_loadedTextures).drop i)) := by
  intro fuel
  induction fuel with
  | zero => intro i calls _ hf; omega
  | succ fuel ih =>
    intro i calls hle hf
    rw [SceneManager.BindGLTextures.loop]
    by_cases h : i < self.m_loadedTextures
    · have hlen : i < self.m_textureIDs.length := by omega
      have he : self.m_textureIDs[i]? = some self.m_textureIDs[i] :=
        List.getElem?_eq_getElem hlen
      have htl : i < (self.m_textureIDs.take self.m_loadedTextures).length := by
        rw [List.length_take]; omega
      have hdrop : (self.m_textureIDs.take self.m_loadedTextures).drop i
          = self.m_textureIDs[i] :: (self.m_textureIDs.take self.m_loadedTextures).drop (i + 1) := by
        rw [List.drop_eq_getElem_cons htl, List.getElem_take]
      simp only [h, he, if_true]
      rw [ih (i + 1) _ h (by omega), hdrop]
      simp [bindCalls]
    · have hin : i = self.m_loadedTextures := by omega
      have hnil : (self.m_textureIDs.take self.m_loadedTextures).drop i = [] := by
        apply List.drop_eq_nil_of_le
        rw [List.length_take]; omega
      simp [h, hnil, bindCalls]

/-- The bindings performed by `bindCalls`: entry number `k` goes to unit `i + k`. -/
theorem bindingsFrom_bindCalls (es : List TEXTURE_INFO) :
    ∀ (i active : Nat),
      bindingsFrom active (bindCalls i es) = (es.enumFrom i).map (fun p => (p.1, p.2.ID)) := by
  induction es with
  | nil => intro i active; rfl
  | cons e es ih =>
    intro i active
    simp [bindCalls, bindingsFrom, List.enumFrom, ih]

/-- The calls of `bindCalls i es` leave the units below `i` alone. -/
theorem run_bindCalls_below (es : List TEXTURE_INFO) :
    ∀ (i : Nat) (g : GLUnits) (u : Nat), u < i →
      (g.run (bindCalls i es)).bound u = g.bound u := by
  induction es with
  | nil => intro i g u _; rfl
  | cons e es ih =>
    intro i g u hu
    have hne : u ≠ i := by omega
    simp only [bindCalls, GLUnits.run, List.foldl_cons]
    have h := ih (i + 1) ((g.step (GLCall.glActiveTexture i)).step (GLCall.glBindTexture e.ID)) u
      (by omega)
    simp only [GLUnits.run] at h
    rw [h]
    simp [GLUnits.step, hne]

/-- After the calls of `bindCalls i es`, unit `i + k` holds the handle of entry `k`. -/
theorem run_bindCalls_at (es : List TEXTURE_INFO) :
    ∀ (i : Nat) (g : GLUnits) (k : Nat) (e : TEXTURE_INFO), es[k]? = some e →
      (g.run (bindCalls i es)).bound (i + k) = some e.ID := by
  induction es with
  | nil => intro i g k e he; simp at he
  | cons e0 es ih =>
    intro i g k e he
    cases k with
    | zero =>
      simp only [List.getElem?_cons_zero, Option.some.injEq] at he
      subst he
      simp only [bindCalls, GLUnits.run, List.foldl_cons, Nat.add_zero]
      have h := run_bindCalls_below es (i + 1)
        ((g.step (GLCall.glActiveTexture i)).step (GLCall.glBindTexture e0.ID)) i (by omega)
      simp only [GLUnits.run] at h
      rw [h]
      simp [GLUnits.step]
    | succ k =>
      simp only [List.getElem?_cons_succ] at he
      simp only [bindCalls, GLUnits.run, List.foldl_cons]
      have h := ih (i + 1)
        ((g.step (GLCall.glActiveTexture i)).step (GLCall.glBindTexture e0.ID)) k e he
      simp only [GLUnits.run] at h
      rw [show i + (k + 1) = i + 1 + k by omega]
      exact h

/-- C10: for a registry with `n` loaded textures that fits its array, `BindGLTextures`
performs exactly the `n` bindings `(i, handle of entry i)` for `i` from 0 to `n - 1`, in
registration order; the units are pairwise distinct; afterwards unit `i` holds the handle
of entry `i`; and for every registered tag the unit `FindTextureSlot(tag)` holds the handle
that `FindTextureID(tag)` returns (read as an `int`). -/
theorem BindGLTextures_binds_in_order {R : Type} (self : SceneManager R)
    (hfit : self.m_loadedTextures ≤ self.m_textureIDs.length) :
    ∃ calls, self.BindGLTextures = .ok calls ∧
      bindingsFrom 0 calls
        = ((self.m_textureIDs.take self.m_loadedTextures).enum.map fun p => (p.1, p.2.ID)) ∧
      (bindingsFrom 0 calls).length = self.m_loadedTextures ∧
      (bindingsFrom 0 calls).map Prod.fst = List.range self.m_loadedTextures ∧
      ((bindingsFrom 0 calls).map Prod.fst).Nodup ∧
      (∀ i e, i < self.m_loadedTextures → self.m_textureIDs[i]? = some e →
        (GLUnits.initial.run calls).bound i = some e.ID) ∧
      (∀ tag, (∃ i e, i < self.m_loadedTextures ∧ self.m_textureIDs[i]? = some e ∧
          e.tag = tag) →
        ∃ (slot handle : Nat), self.FindTextureSlot tag = .ok (slot : Int) ∧
          self.FindTextureID tag = .ok (toInt32 handle) ∧
          (GLUnits.initial.run calls).bound slot = some handle) := by
  have hcalls : self.BindGLTextures
      = .ok (bindCalls 0 (self.m_textureIDs.take self.m_loadedTextures)) := by
    have h := BindGLTextures_loop_eq self hfit (self.m_loadedTextures + 1) 0 []
      (Nat.zero_le _) (by omega)
    simpa [SceneManager.BindGLTextures] using h
  have hlen : (self.m_textureIDs.take self.m_loadedTextures).length = self.m_loadedTextures := by
    rw [List.length_take]; omega
  have hbind : bindingsFrom 0 (bindCalls 0 (self.m_textureIDs.take self.m_loadedTextures))
      = ((self.m_textureIDs.take self.m_loadedTextures).enum.map fun p => (p.1, p.2.ID)) := by
    rw [bindingsFrom_bindCalls, List.enum_eq_enumFrom]
  have hunits : (bindingsFrom 0
      (bindCalls 0 (self.m_textureIDs.take self.m_loadedTextures))).map Prod.fst
      = List.range self.m_loadedTextures := by
    rw [hbind, List.map_map]
    have hfun : (Prod.fst ∘ fun p : Nat × TEXTURE_INFO => (p.1, p.2.ID)) = Prod.fst := rfl
    rw [hfun, List.enum_map_fst, hlen]
  have hheld : ∀ i e, i < self.m_loadedTextures → self.m_textureIDs[i]? = some e →
      (GLUnits.initial.run (bindCalls 0 (self.m_textureIDs.take self.m_loadedTextures))).bound i
        = some e.ID := by
    intro i e hi he
    have hte : (self.m_textureIDs.take self.m_loadedTextures)[i]? = some e := by
      rw [List.getElem?_take_of_lt hi]; exact he
    have h := run_bindCalls_at (self.m_textureIDs.take self.m_loadedTextures) 0
      GLUnits.initial i e hte
    rwa [Nat.zero_add] at h
  refine ⟨_, hcalls, hbind, ?_, hunits, ?_, hheld, ?_⟩
  · rw [hbind, List.length_map, List.enum_length, hlen]
  · rw [hunits]; exact List.nodup_range _
  · intro tag hex
    obtain ⟨j, e, hj, he, ht, hfirst⟩ := first_carrier_exists self tag hex
    obtain ⟨hslot, hid⟩ := FindTexture_first_carrier self tag hfit j e hj he ht hfirst
    exact ⟨j, e.ID, hslot, hid, hheld j e hj he⟩

/-- C10 on `shadowScene`: three bindings, to the units 0, 1 and 2, and the unit of the tag
`wood` holds the handle 7 of its first carrier. -/
theorem BindGLTextures_binds_in_order_witness :
    shadowScene.m_loadedTextures ≤ shadowScene.m_textureIDs.length ∧
    shadowScene.BindGLTextures
      = .ok [GLCall.glActiveTexture 0, GLCall.glBindTexture 7,
             GLCall.glActiveTexture 1, GLCall.glBindTexture 9,
             GLCall.glActiveTexture 2, GLCall.glBindTexture 11] ∧
    ∃ calls, shadowScene.BindGLTextures = .ok calls ∧
      bindingsFrom 0 calls
        = ((shadowScene.m_textureIDs.take shadowScene.m_loadedTextures).enum.map
            fun p => (p.1, p.2.ID)) ∧
      (bindingsFrom 0 calls).length = shadowScene.m_loadedTextures ∧
      ((bindingsFrom 0 calls).map Prod.fst).Nodup :=
  ⟨by decide, rfl,
    (BindGLTextures_binds_in_order shadowScene (by decide)).imp
      (fun _ h => ⟨h.1, h.2.1, h.2.2.1, h.2.2.2.2.1⟩)⟩

/-! ## C11: releasing the textures -/

/-- C11: on `shadowScene`, whose three loaded textures have the handles 7, 9 and 11,
`DestroyGLTextures` releases no texture at all; it issues three `glGenTextures` calls, which
create three new texture objects (here named 100, 101 and 102), and overwrites the three
stored handles with the new names. -/
theorem DestroyGLTextures_generates_instead_of_deleting :
    shadowScene.m_loadedTextures = 3 ∧
    (shadowScene.m_textureIDs.take 3).map (fun e => e.ID) = [7, 9, 11] ∧
    (shadowScene.DestroyGLTextures (fun i => 100 + i)).toOption.map (fun r => r.2)
      = some [GLTextureCall.glGenTextures 100, GLTextureCall.glGenTextures 101,
              GLTextureCall.glGenTextures 102] ∧
    (shadowScene.DestroyGLTextures (fun i => 100 + i)).toOption.map
        (fun r => releasedNames r.2) = some [] ∧
    (shadowScene.DestroyGLTextures (fun i => 100 + i)).toOption.map
        (fun r => createdNames r.2) = some [100, 101, 102] ∧
    (shadowScene.DestroyGLTextures (fun i => 100 + i)).toOption.map
        (fun r => (r.1.m_textureIDs.take 3).map (fun e => e.ID)) = some [100, 101, 102] :=
  ⟨rfl, rfl, rfl, rfl, rfl, rfl⟩

/-! ## C12: the draw calls of `RenderScene` -/

/-- A registered material tag has a first material that carries it. -/
theorem first_material_exists {R : Type} (self : SceneManager R) (tag : String)
    (hex : ∃ (i : Nat) (m : OBJECT_MATERIAL R),
      self.m_objectMaterials[i]? = some m ∧ m.tag = tag) :
    ∃ (j : Nat) (m : OBJECT_MATERIAL R), self.m_objectMaterials[j]? = some m ∧ m.tag = tag ∧
      ∀ (i : Nat) (m0 : OBJECT_MATERIAL R), i < j → self.m_objectMaterials[i]? = some m0 →
        m0.tag ≠ tag := by
  classical
  have hP : ∃ i : Nat, ∃ m : OBJECT_MATERIAL R,
      self.m_objectMaterials[i]? = some m ∧ m.tag = tag := hex
  obtain ⟨m, hm, ht⟩ := Nat.find_spec hP
  refine ⟨Nat.find hP, m, hm, ht, ?_⟩
  intro i m0 hi hm0 ht0
  exact Nat.find_min hP hi ⟨m0, hm0, ht0⟩

/-- On a registry that is not empty `FindMaterial` returns true for every tag. -/
theorem FindMaterial_nonempty {R : Type} (self : SceneManager R) (tag : String)
    (material : OBJECT_MATERIAL R) (hne : self.m_objectMaterials ≠ []) :
    ∃ found, self.FindMaterial tag material = .ok (true, found) := by
  have hlen : ¬ self.m_objectMaterials.length = 0 := by
    intro h; exact hne (List.length_eq_zero.mp h)
  by_cases hex : ∃ (i : Nat) (m : OBJECT_MATERIAL R),
      self.m_objectMaterials[i]? = some m ∧ m.tag = tag
  · obtain ⟨j, m, hj, ht, hfirst⟩ := first_material_exists self tag hex
    have hjlt : j < self.m_objectMaterials.length := by
      rcases Nat.lt_or_ge j self.m_objectMaterials.length with h | h
      · exact h
      · rw [List.getElem?_eq_none h] at hj; cases hj
    have hloop := FindMaterial_loop_hit self tag j m hj ht
      (self.m_objectMaterials.length + 1) 0 material (Nat.zero_le _) (by omega)
      (fun i m0 _ hij hm => hfirst i m0 hij hm)
    exact ⟨_, by simp only [SceneManager.FindMaterial, hlen, if_false, hloop]; rfl⟩
  · have hloop := FindMaterial_loop_miss self tag (self.m_objectMaterials.length + 1) 0
      material (Nat.zero_le _) (by omega)
      (fun i m _ hm ht => hex ⟨i, m, hm, ht⟩)
    exact ⟨_, by simp only [SceneManager.FindMaterial, hlen, if_false, hloop]; rfl⟩

/-- In a registry that fits its array `SetShaderTexture` returns, with the registries
untouched. -/
theorem SetShaderTexture_returns {R : Type} (self : SceneManager R) (textureTag : String)
    (hfit : self.m_loadedTextures ≤ self.m_textureIDs.length) :
    ∃ result, self.SetShaderTexture textureTag = .ok result ∧ self.sameRegistries result := by
  obtain ⟨slot, hslot⟩ : ∃ slot, self.FindTextureSlot textureTag = .ok slot := by
    rcases texture_lookup_total self textureTag hfit with ⟨j, _, _, _, _, _, h, _⟩ | ⟨_, h, _⟩
    · exact ⟨_, h⟩
    · exact ⟨_, h⟩
  cases hsh : self.m_pShaderManager with
  | none =>
    exact ⟨self, by simp only [SceneManager.SetShaderTexture, hsh], rfl, rfl, rfl, rfl⟩
  | some sh =>
    have hres : ∃ sh2, self.SetShaderTexture textureTag
        = .ok { self with m_pShaderManager := some sh2 } := by
      refine ⟨(sh.setIntValue g_UseTextureName 1).setSampler2DValue g_TextureValueName slot, ?_⟩
      simp only [SceneManager.SetShaderTexture, hsh, hslot]
    obtain ⟨sh2, hres2⟩ := hres
    exact ⟨_, hres2, rfl, rfl, rfl, by simp [hsh]⟩

/-- When the shading stage is attached or no material is defined, `SetShaderMaterial`
returns, with the registries untouched. -/
theorem SetShaderMaterial_returns {R : Type} (self : SceneManager R) (materialTag : String)
    (material : OBJECT_MATERIAL R)
    (hsh : self.m_pShaderManager.isSome = true ∨ self.m_objectMaterials = []) :
    ∃ result, self.SetShaderMaterial materialTag material = .ok result ∧
      self.sameRegistries result := by
  by_cases hne : self.m_objectMaterials = []
  · refine ⟨self, ?_, rfl, rfl, rfl, rfl⟩
    simp [SceneManager.SetShaderMaterial, hne]
  · have hpos : self.m_objectMaterials.length > 0 := List.length_pos.mpr hne
    obtain ⟨found, hfound⟩ := FindMaterial_nonempty self materialTag material hne
    rcases hsh with hsome | hempty
    · obtain ⟨sh, hshv⟩ := Option.isSome_iff_exists.mp hsome
      have hres : ∃ sh2, self.SetShaderMaterial materialTag material
          = .ok { self with m_pShaderManager := some sh2 } := by
        refine ⟨((((sh.setVec3Value "material.ambientColor" found.ambientColor).setFloatValue
          "material.ambientStrength" found.ambientStrength).setVec3Value
          "material.diffuseColor" found.diffuseColor).setVec3Value
          "material.specularColor" found.specularColor).setFloatValue
          "material.shininess" found.shininess, ?_⟩
        simp only [SceneManager.SetShaderMaterial, hpos, if_true, hfound, hshv]
      obtain ⟨sh2, hres2⟩ := hres
      exact ⟨_, hres2, rfl, rfl, rfl, by simp [hshv]⟩
    · exact absurd hempty hne

/-- One call of `RenderScene` returns and keeps the registries, on a registry that fits its
array with the shading stage attached or no material defined. -/
theorem perform_returns {R : Type} [CommRing R] (fm : ScalarMath R) (self : SceneManager R)
    (meshCalls : List MeshCall) (call : SceneCall R)
    (hfit : self.m_loadedTextures ≤ self.m_textureIDs.length)
    (hsh : self.m_pShaderManager.isSome = true ∨ self.m_objectMaterials = []) :
    ∃ result, SceneManager.perform fm (self, meshCalls) call
        = .ok (result, meshCalls ++ call.meshCalls) ∧ self.sameRegistries result := by
  cases call with
  | SetTransformations scaleXYZ x y z positionXYZ =>
    refine ⟨self.SetTransformations fm scaleXYZ x y z positionXYZ,
      by simp [SceneManager.perform, SceneCall.meshCalls], ?_⟩
    cases hs : self.m_pShaderManager <;>
      simp [SceneManager.sameRegistries, SceneManager.SetTransformations, hs]
  | SetShaderTexture textureTag =>
    obtain ⟨result, hres, hsame⟩ := SetShaderTexture_returns self textureTag hfit
    exact ⟨result, by simp [SceneManager.perform, SceneCall.meshCalls, hres], hsame⟩
  | SetTextureUVScale u v =>
    refine ⟨self.SetTextureUVScale u v,
      by simp [SceneManager.perform, SceneCall.meshCalls], ?_⟩
    cases hs : self.m_pShaderManager <;>
      simp [SceneManager.sameRegistries, SceneManager.SetTextureUVScale, hs]
  | SetShaderMaterial materialTag material =>
    obtain ⟨result, hres, hsame⟩ := SetShaderMaterial_returns self materialTag material hsh
    exact ⟨result, by simp [SceneManager.perform, SceneCall.meshCalls, hres], hsame⟩
  | DrawPlaneMesh => exact ⟨self, rfl, rfl, rfl, rfl, rfl⟩
  | DrawTaperedCylinderMesh => exact ⟨self, rfl, rfl, rfl, rfl, rfl⟩
  | DrawSphereMesh => exact ⟨self, rfl, rfl, rfl, rfl, rfl⟩
  | DrawCylinderMesh => exact ⟨self, rfl, rfl, rfl, rfl, rfl⟩
  | DrawTorusMesh => exact ⟨self, rfl, rfl, rfl, rfl, rfl⟩

/-- A sequence of calls of `RenderScene` returns, keeps the registries and hands the draw
calls it contains to the mesh provider, in order. -/
theorem performAll_returns {R : Type} [CommRing R] (fm : ScalarMath R) :
    ∀ (calls : List (SceneCall R)) (self : SceneManager R) (meshCalls : List MeshCall),
      self.m_loadedTextures ≤ self.m_textureIDs.length →
      (self.m_pShaderManager.isSome = true ∨ self.m_objectMaterials = []) →
      ∃ result, SceneManager.performAll fm calls (self, meshCalls)
          = .ok (result, meshCalls ++ calls.flatMap SceneCall.meshCalls) ∧
        self.sameRegistries result := by
  intro calls
  induction calls with
  | nil =>
    intro self meshCalls _ _
    exact ⟨self, by simp [SceneManager.performAll], rfl, rfl, rfl, rfl⟩
  | cons call calls ih =>
    intro self meshCalls hfit hsh
    obtain ⟨mid, hmid, h1, h2, h3, h4⟩ := perform_returns fm self meshCalls call hfit hsh
    obtain ⟨result, hres, g1, g2, g3, g4⟩ := ih mid (meshCalls ++ call.meshCalls)
      (by rw [← h1, ← h2]; exact hfit) (by rw [← h3, ← h4]; exact hsh)
    refine ⟨result, ?_, h1.trans g1, h2.trans g2, h3.trans g3, h4.trans g4⟩
    simp only [SceneManager.performAll, hmid, hres, List.flatMap_cons, List.append_assoc]

/-- C12, a run on which it fails: `PrepareScene` followed by `RenderScene`, from
`emptyScene` with every image decoded, hands twelve calls to the mesh provider, all of them
draw calls, and not fifteen. -/
theorem RenderScene_twelve_draws_on_prepared_scene :
    (preparedSample.bind fun prepared =>
        SceneManager.RenderScene flatMath prepared.1 staleMaterial staleMaterial).toOption.map
      (fun r => ((r.2.filter MeshCall.isDraw).length, r.2.length)) = some (12, 12) := rfl

/-- C12, amended: on every registry that fits its array, with the shading stage attached or
no material defined, one call of `RenderScene` returns and issues exactly 12 mesh draw
calls: plane, tapered cylinder, sphere, sphere, cylinder, cylinder, sphere, cylinder, torus,
sphere, cylinder, cylinder; the registries are left as they were. -/
theorem RenderScene_issues_twelve_draws {R : Type} [Field R] (fm : ScalarMath R)
    (self : SceneManager R) (material1 material2 : OBJECT_MATERIAL R)
    (hfit : self.m_loadedTextures ≤ self.m_textureIDs.length)
    (hsh : self.m_pShaderManager.isSome = true ∨ self.m_objectMaterials = []) :
    ∃ result meshCalls, self.RenderScene fm material1 material2 = .ok (result, meshCalls) ∧
      meshCalls = [MeshCall.DrawPlaneMesh, MeshCall.DrawTaperedCylinderMesh,
        MeshCall.DrawSphereMesh, MeshCall.DrawSphereMesh, MeshCall.DrawCylinderMesh,
        MeshCall.DrawCylinderMesh, MeshCall.DrawSphereMesh, MeshCall.DrawCylinderMesh,
        MeshCall.DrawTorusMesh, MeshCall.DrawSphereMesh, MeshCall.DrawCylinderMesh,
        MeshCall.DrawCylinderMesh] ∧
      (meshCalls.filter MeshCall.isDraw).length = 12 ∧
      self.sameRegistries result := by
  obtain ⟨result, hres, hsame⟩ := performAll_returns fm
    (SceneManager.RenderScene.calls material1 material2) self [] hfit hsh
  have hcalls : (SceneManager.RenderScene.calls material1 material2).flatMap SceneCall.meshCalls
      = [MeshCall.DrawPlaneMesh, MeshCall.DrawTaperedCylinderMesh,
        MeshCall.DrawSphereMesh, MeshCall.DrawSphereMesh, MeshCall.DrawCylinderMesh,
        MeshCall.DrawCylinderMesh, MeshCall.DrawSphereMesh, MeshCall.DrawCylinderMesh,
        MeshCall.DrawTorusMesh, MeshCall.DrawSphereMesh, MeshCall.DrawCylinderMesh,
        MeshCall.DrawCylinderMesh] := rfl
  rw [hcalls, List.nil_append] at hres
  exact ⟨result, _, hres, rfl, rfl, hsame⟩

/-- C12, amended, on `shadowScene`. -/
theorem RenderScene_issues_twelve_draws_witness :
    shadowScene.m_loadedTextures ≤ shadowScene.m_textureIDs.length ∧
    (shadowScene.m_pShaderManager.isSome = true ∨ shadowScene.m_objectMaterials = []) ∧
    ∃ result meshCalls,
      shadowScene.RenderScene flatMath staleMaterial staleMaterial = .ok (result, meshCalls) ∧
      (meshCalls.filter MeshCall.isDraw).length = 12 :=
  ⟨by decide, Or.inl rfl,
    (RenderScene_issues_twelve_draws flatMath shadowScene staleMaterial staleMaterial
      (by decide) (Or.inl rfl)).imp
      (fun _ h => h.imp (fun _ h2 => ⟨h2.1, h2.2.2.1⟩))⟩

/-! ## C13: the prepared scene -/

/-- A list of length at least six starts with six elements. -/
theorem six_entries (textures : List TEXTURE_INFO) (h : 6 ≤ textures.length) :
    ∃ t0 t1 t2 t3 t4 t5 rest, textures = t0 :: t1 :: t2 :: t3 :: t4 :: t5 :: rest := by
  match textures, h with
  | t0 :: t1 :: t2 :: t3 :: t4 :: t5 :: rest, _ => exact ⟨t0, t1, t2, t3, t4, t5, rest, rfl⟩

/-- What `PrepareScene` returns from empty registries when the six files decode. -/
theorem PrepareScene_eq {R : Type} [Field R] (stbi_load : String → Option Image)
    (glGenTextures : Nat → Nat) (sh : ShaderManager R)
    (t0 t1 t2 t3 t4 t5 : TEXTURE_INFO) (rest : List TEXTURE_INFO)
    (hload : ∀ file, file ∈ sceneTextureFiles → ∃ image, stbi_load file = some image ∧
      (image.colorChannels = 3 ∨ image.colorChannels = 4)) :
    ∃ lit meshCalls, SceneManager.PrepareScene stbi_load glGenTextures
        ⟨some sh, t0 :: t1 :: t2 :: t3 :: t4 :: t5 :: rest, 0, []⟩
      = .ok (⟨some lit,
          ⟨glGenTextures 0, "wood"⟩ :: ⟨glGenTextures 1, "counter"⟩ ::
          ⟨glGenTextures 2, "apple"⟩ :: ⟨glGenTextures 3, "stainless"⟩ ::
          ⟨glGenTextures 4, "plate"⟩ :: ⟨glGenTextures 5, "ceramic"⟩ :: rest, 6,
          (SceneManager.DefineObjectMaterials (R := R) ⟨none, [], 0, []⟩).m_objectMaterials⟩,
        meshCalls) := by
  obtain ⟨i0, h0, c0⟩ := hload "textures/wood.jpg" (by simp [sceneTextureFiles])
  obtain ⟨i1, h1, c1⟩ := hload "textures/counter.jpg" (by simp [sceneTextureFiles])
  obtain ⟨i2, h2, c2⟩ := hload "textures/apple.jpg" (by simp [sceneTextureFiles])
  obtain ⟨i3, h3, c3⟩ := hload "textures/stainless.jpg" (by simp [sceneTextureFiles])
  obtain ⟨i4, h4, c4⟩ := hload "textures/plate.jpg" (by simp [sceneTextureFiles])
  obtain ⟨i5, h5, c5⟩ := hload "textures/ceramic.jpg" (by simp [sceneTextureFiles])
  refine ⟨?lit, ?calls, ?_⟩
  case lit =>
    exact (SceneManager.SetupSceneLights (R := R) ⟨some sh, [], 0, []⟩).toOption.elim sh
      (fun s => s.m_pShaderManager.elim sh id)
  case calls =>
    exact [MeshCall.LoadPlaneMesh, MeshCall.LoadTaperedCylinderMesh,
      MeshCall.LoadSphereMesh, MeshCall.LoadCylinderMesh, MeshCall.LoadTorusMesh]
  simp [SceneManager.PrepareScene, SceneManager.CreateGLTexture, h0, h1, h2, h3, h4, h5,
    c0, c1, c2, c3, c4, c5, bind, Except.bind, pure, Except.pure,
    SceneManager.SetupSceneLights, SceneManager.DefineObjectMaterials, Except.toOption]

/-- On a registry that fits its array, with the shading stage attached or no material
defined, `RenderScene` returns. -/
theorem RenderScene_draws_exist {R : Type} [Field R] (fm : ScalarMath R)
    (self : SceneManager R) (material1 material2 : OBJECT_MATERIAL R)
    (hfit : self.m_loadedTextures ≤ self.m_textureIDs.length)
    (hsh : self.m_pShaderManager.isSome = true ∨ self.m_objectMaterials = []) :
    ∃ result meshCalls, self.RenderScene fm material1 material2 = .ok (result, meshCalls) ∧
      self.sameRegistries result := by
  obtain ⟨result, hres, hsame⟩ := performAll_returns fm
    (SceneManager.RenderScene.calls material1 material2) self [] hfit hsh
  exact ⟨result, _, hres, hsame⟩

/-- C13: starting from empty registries, with the shading stage attached, room for six
entries in the texture array and a decoder that returns a 3- or 4-channel image for each of
the six files, `PrepareScene` returns with exactly 6 registered textures (tagged wood,
counter, apple, stainless, plate, ceramic) and 2 defined materials (tagged wood, counter);
in the `RenderScene` that follows, which returns, every tag passed to `SetShaderTexture` is
resolved by `FindTextureSlot` to a slot from 0 to 5, and every tag passed to
`SetShaderMaterial` is the tag of a defined material. -/
theorem PrepareScene_registers_all_render_tags {R : Type} [Field R] (fm : ScalarMath R)
    (stbi_load : String → Option Image) (glGenTextures : Nat → Nat) (sh : ShaderManager R)
    (textures : List TEXTURE_INFO) (material1 material2 : OBJECT_MATERIAL R)
    (hroom : 6 ≤ textures.length)
    (hload : ∀ file, file ∈ sceneTextureFiles → ∃ image, stbi_load file = some image ∧
      (image.colorChannels = 3 ∨ image.colorChannels = 4)) :
    ∃ prepared meshCalls,
      SceneManager.PrepareScene stbi_load glGenTextures ⟨some sh, textures, 0, []⟩
        = .ok (prepared, meshCalls) ∧
      prepared.m_loadedTextures = 6 ∧
      (prepared.m_textureIDs.take 6).map (fun e => e.tag)
        = ["wood", "counter", "apple", "stainless", "plate", "ceramic"] ∧
      prepared.m_objectMaterials.length = 2 ∧
      prepared.m_objectMaterials.map (fun m => m.tag) = ["wood", "counter"] ∧
      (∀ tag, tag ∈ (SceneManager.RenderScene.calls material1 material2).filterMap
            SceneCall.textureTag →
        ∃ slot : Int, prepared.FindTextureSlot tag = .ok slot ∧ 0 ≤ slot ∧ slot < 6) ∧
      (∀ tag, tag ∈ (SceneManager.RenderScene.calls material1 material2).filterMap
            SceneCall.materialTag →
        ∃ m, m ∈ prepared.m_objectMaterials ∧ m.tag = tag) ∧
      (∃ result draws, prepared.RenderScene fm material1 material2 = .ok (result, draws)) := by
  obtain ⟨t0, t1, t2, t3, t4, t5, rest, rfl⟩ := six_entries textures hroom
  obtain ⟨lit, meshCalls, hprep⟩ :=
    PrepareScene_eq stbi_load glGenTextures sh t0 t1 t2 t3 t4 t5 rest hload
  have htex : (SceneManager.RenderScene.calls material1 material2).filterMap
      SceneCall.textureTag = ["counter", "wood", "wood", "wood", "wood", "wood", "wood",
        "ceramic", "ceramic", "apple", "wood", "plate"] := rfl
  have hmat : (SceneManager.RenderScene.calls material1 material2).filterMap
      SceneCall.materialTag = ["wood", "wood"] := rfl
  refine ⟨_, meshCalls, hprep, rfl, rfl, rfl, rfl, ?_, ?_, ?_⟩
  · intro tag htag
    rw [htex] at htag
    simp only [List.mem_cons, List.mem_singleton, List.not_mem_nil, or_false] at htag
    rcases htag with h | h | h | h | h | h | h | h | h | h | h | h <;> subst h
    · exact ⟨1, rfl, by decide, by decide⟩
    · exact ⟨0, rfl, by decide, by decide⟩
    · exact ⟨0, rfl, by decide, by decide⟩
    · exact ⟨0, rfl, by decide, by decide⟩
    · exact ⟨0, rfl, by decide, by decide⟩
    · exact ⟨0, rfl, by decide, by decide⟩
    · exact ⟨0, rfl, by decide, by decide⟩
    · exact ⟨5, by simp [SceneManager.FindTextureSlot, SceneManager.FindTextureSlot.loop],
        by decide, by decide⟩
    · exact ⟨5, by simp [SceneManager.FindTextureSlot, SceneManager.FindTextureSlot.loop],
        by decide, by decide⟩
    · exact ⟨2, rfl, by decide, by decide⟩
    · exact ⟨0, rfl, by decide, by decide⟩
    · exact ⟨4, rfl, by decide, by decide⟩
  · intro tag htag
    rw [hmat] at htag
    simp only [List.mem_cons, List.mem_singleton, List.not_mem_nil, or_false, or_self] at htag
    subst htag
    simp [SceneManager.DefineObjectMaterials]
  · have hrun : ∀ p : SceneManager R, p.m_loadedTextures ≤ p.m_textureIDs.length →
        p.m_pShaderManager.isSome = true →
        ∃ result draws, p.RenderScene fm material1 material2 = .ok (result, draws) := by
      intro p h1 h2
      obtain ⟨result, draws, hres, _⟩ :=
        RenderScene_draws_exist fm p material1 material2 h1 (Or.inl h2)
      exact ⟨result, draws, hres⟩
    exact hrun _ (by simp) rfl

/-- C13 from `emptyScene`, with every file decoded to a 3-channel image. -/
theorem PrepareScene_registers_all_render_tags_witness :
    6 ≤ (List.replicate 16 (⟨0, ""⟩ : TEXTURE_INFO)).length ∧
    (∀ file, file ∈ sceneTextureFiles → ∃ image, decodeWith 3 file = some image ∧
      (image.colorChannels = 3 ∨ image.colorChannels = 4)) ∧
    ∃ prepared meshCalls,
      SceneManager.PrepareScene (R := ℚ) (decodeWith 3) (fun k => k + 1)
        ⟨some ⟨[]⟩, List.replicate 16 ⟨0, ""⟩, 0, []⟩ = .ok (prepared, meshCalls) ∧
      prepared.m_loadedTextures = 6 ∧
      prepared.m_objectMaterials.length = 2 :=
  ⟨by decide, fun _ _ => ⟨⟨64, 64, 3⟩, rfl, Or.inl rfl⟩,
    (PrepareScene_registers_all_render_tags flatMath (decodeWith 3) (fun k => k + 1) ⟨[]⟩
      (List.replicate 16 ⟨0, ""⟩) staleMaterial staleMaterial (by decide)
      (fun _ _ => ⟨⟨64, 64, 3⟩, rfl, Or.inl rfl⟩)).imp
      (fun _ h => h.imp (fun _ h2 => ⟨h2.1, h2.2.1, h2.2.2.2.1⟩))⟩

/-! ## C14: the projection mode -/

/-- The flag after `ProcessKeyboardEvents`. -/
theorem ProcessKeyboardEvents_flag {R C : Type} (camera : CameraOps R C) (pressed : Key → Bool)
    (self : ViewManager R C) :
    (self.ProcessKeyboardEvents camera pressed).bOrthographicProjection
      = if pressed Key.O then true else if pressed Key.P then false
        else self.bOrthographicProjection := by
  obtain ⟨sh, close, cam, dt, lf, flag⟩ := self
  cases cam <;> cases hO : pressed Key.O <;> cases hP : pressed Key.P <;>
    cases hE : pressed Key.ESCAPE <;> simp [ViewManager.ProcessKeyboardEvents, hO, hP, hE]

/-- The handle after `ProcessKeyboardEvents`. -/
theorem ProcessKeyboardEvents_shader {R C : Type} (camera : CameraOps R C)
    (pressed : Key → Bool) (self : ViewManager R C) :
    (self.ProcessKeyboardEvents camera pressed).m_pShaderManager = self.m_pShaderManager := by
  obtain ⟨sh, close, cam, dt, lf, flag⟩ := self
  cases cam <;> cases hO : pressed Key.O <;> cases hP : pressed Key.P <;>
    cases hE : pressed Key.ESCAPE <;> simp [ViewManager.ProcessKeyboardEvents, hO, hP, hE]

/-- The camera after `ProcessKeyboardEvents`. -/
theorem ProcessKeyboardEvents_camera {R C : Type} (camera : CameraOps R C)
    (pressed : Key → Bool) (sh : Option (ShaderManager R)) (close : Bool) (cam : C)
    (dt lf : R) (flag : Bool) :
    ∃ cam2, (ViewManager.ProcessKeyboardEvents camera pressed
      ⟨sh, close, some cam, dt, lf, flag⟩).g_pCamera = some cam2 := by
  cases hO : pressed Key.O <;> cases hP : pressed Key.P <;>
    cases hE : pressed Key.ESCAPE <;> simp [ViewManager.ProcessKeyboardEvents, hO, hP, hE]

/-- The orthographic and the perspective projection matrix are never equal: their last
diagonal entries are 1 and 0. -/
theorem ortho_ne_perspective {R : Type} [Field R] (tan : R → R)
    (left right bottom top zNear zFar fovy aspect zNear2 zFar2 : R) :
    glm.ortho left right bottom top zNear zFar ≠ glm.perspective tan fovy aspect zNear2 zFar2 := by
  intro h
  have h33 := congrFun (congrFun h 3) 3
  simp [glm.ortho, glm.perspective] at h33

/-- What `PrepareSceneView` returns when, after the key processing, the camera is `cam2`
and the shading stage is `sh`. -/
theorem PrepareSceneView_eq {R C : Type} [Field R] (fm : ScalarMath R) (tan : R → R)
    (camera : CameraOps R C) (glfwGetTime : R) (pressed : Key → Bool)
    (sh0 : Option (ShaderManager R)) (close : Bool) (cam0 : Option C) (dt lf : R) (flag : Bool)
    (cam2 : C) (sh : ShaderManager R)
    (hcam : (ViewManager.ProcessKeyboardEvents camera pressed
      ⟨sh0, close, cam0, glfwGetTime - lf, glfwGetTime, flag⟩).g_pCamera = some cam2)
    (hsh : (ViewManager.ProcessKeyboardEvents camera pressed
      ⟨sh0, close, cam0, glfwGetTime - lf, glfwGetTime, flag⟩).m_pShaderManager = some sh) :
    ViewManager.PrepareSceneView fm tan camera glfwGetTime pressed
        ⟨sh0, close, cam0, dt, lf, flag⟩
      = .ok { ViewManager.ProcessKeyboardEvents camera pressed
                ⟨sh0, close, cam0, glfwGetTime - lf, glfwGetTime, flag⟩ with
          m_pShaderManager := some ⟨sh.uploads ++
            [("view", UniformValue.mat4 (camera.GetViewMatrix cam2)),
             ("projection", UniformValue.mat4
                (if (ViewManager.ProcessKeyboardEvents camera pressed
                    ⟨sh0, close, cam0, glfwGetTime - lf, glfwGetTime,
                      flag⟩).bOrthographicProjection then
                  glm.ortho (-10.0 * ((WINDOW_WIDTH : R) / (WINDOW_HEIGHT : R)))
                    (10.0 * ((WINDOW_WIDTH : R) / (WINDOW_HEIGHT : R))) (-10.0) 10.0 0.1 100.0
                else
                  glm.perspective tan (fm.radians (camera.Zoom cam2))
                    ((WINDOW_WIDTH : R) / (WINDOW_HEIGHT : R)) 0.1 100.0)),
             ("viewPosition", UniformValue.vec3 (camera.Position cam2))]⟩ } := by
  simp only [ViewManager.PrepareSceneView, hcam, hsh, ShaderManager.setMat4Value,
    ShaderManager.setVec3Value, ShaderManager.upload, g_ViewName, g_ProjectionName,
    List.append_assoc, List.singleton_append, List.cons_append, List.nil_append]

/-- C14: after one call of `ProcessKeyboardEvents` the orthographic flag is true if O is
pressed (also when P is pressed as well), false if P is pressed and O is not, and unchanged
if neither is pressed. `PrepareSceneView`, with the shading stage and the camera attached,
processes the keys and then appends three uploads: the view matrix, under `projection` the
orthographic matrix if the flag is true after the key processing and the perspective matrix
otherwise, and the view position. The two projection matrices are never equal. -/
theorem projection_mode_follows_keys {R C : Type} [Field R] :
    (∀ (camera : CameraOps R C) (pressed : Key → Bool) (self : ViewManager R C),
      (self.ProcessKeyboardEvents camera pressed).bOrthographicProjection
        = if pressed Key.O then true else if pressed Key.P then false
          else self.bOrthographicProjection) ∧
    (∀ (fm : ScalarMath R) (tan : R → R) (camera : CameraOps R C) (glfwGetTime : R)
        (pressed : Key → Bool) (sh : ShaderManager R) (close : Bool) (cam : C) (dt lf : R)
        (flag : Bool),
      ∃ cam2 result,
        (ViewManager.ProcessKeyboardEvents camera pressed
          ⟨some sh, close, some cam, glfwGetTime - lf, glfwGetTime, flag⟩).g_pCamera
          = some cam2 ∧
        ViewManager.PrepareSceneView fm tan camera glfwGetTime pressed
          ⟨some sh, close, some cam, dt, lf, flag⟩ = .ok result ∧
        result.bOrthographicProjection
          = (if pressed Key.O then true else if pressed Key.P then false else flag) ∧
        result.m_pShaderManager = some ⟨sh.uploads ++
          [("view", UniformValue.mat4 (camera.GetViewMatrix cam2)),
           ("projection", UniformValue.mat4
              (if result.bOrthographicProjection then
                glm.ortho (-10.0 * ((WINDOW_WIDTH : R) / (WINDOW_HEIGHT : R)))
                  (10.0 * ((WINDOW_WIDTH : R) / (WINDOW_HEIGHT : R))) (-10.0) 10.0 0.1 100.0
              else
                glm.perspective tan (fm.radians (camera.Zoom cam2))
                  ((WINDOW_WIDTH : R) / (WINDOW_HEIGHT : R)) 0.1 100.0)),
           ("viewPosition", UniformValue.vec3 (camera.Position cam2))]⟩) ∧
    (∀ (tan : R → R) (left right bottom top zNear zFar fovy aspect zNear2 zFar2 : R),
      glm.ortho left right bottom top zNear zFar
        ≠ glm.perspective tan fovy aspect zNear2 zFar2) := by
  refine ⟨ProcessKeyboardEvents_flag, ?_, ortho_ne_perspective⟩
  intro fm tan camera glfwGetTime pressed sh close cam dt lf flag
  obtain ⟨cam2, hcam⟩ := ProcessKeyboardEvents_camera camera pressed (some sh) close cam
    (glfwGetTime - lf) glfwGetTime flag
  have hsh := ProcessKeyboardEvents_shader camera pressed
    (⟨some sh, close, some cam, glfwGetTime - lf, glfwGetTime, flag⟩ : ViewManager R C)
  have hflag := ProcessKeyboardEvents_flag camera pressed
    (⟨some sh, close, some cam, glfwGetTime - lf, glfwGetTime, flag⟩ : ViewManager R C)
  exact ⟨cam2, _, hcam,
    PrepareSceneView_eq fm tan camera glfwGetTime pressed (some sh) close (some cam) dt lf flag
      cam2 sh hcam hsh, hflag, rfl⟩

/-- C14 on `viewSample` with O and P pressed in the same frame: the flag becomes true. -/
theorem projection_mode_follows_keys_witness :
    keysOP Key.O = true ∧ keysOP Key.P = true ∧
    (viewSample.ProcessKeyboardEvents lineCamera keysOP).bOrthographicProjection
      = (if keysOP Key.O then true else if keysOP Key.P then false
          else viewSample.bOrthographicProjection) ∧
    (viewSample.ProcessKeyboardEvents lineCamera keysOP).bOrthographicProjection = true :=
  ⟨rfl, rfl, projection_mode_follows_keys.1 lineCamera keysOP viewSample, rfl⟩
